import Mathlib

/-!
Verification of the response-formatting / field-normalization layer and the
tool-registration compatibility shim of the intervals-mcp-server repository.

The Python payloads handled by `utils/formatting.py` are JSON-decoded values:
`None`, booleans, integers, strings, lists and string-keyed dictionaries.
They are embedded below as the inductive type `Value`; a top-level payload is
an insertion-ordered association list `List (String × Value)` (the model of a
Python `dict`, whose keys are unique and whose iteration order is insertion
order).  Numbers are modelled by `Int` only: no claim under consideration
depends on float-specific behavior.  Character classes (`islower`, `isupper`,
`[a-z]`, `[A-Z]`, `upper()`) are modelled over ASCII, which is exact for the
regex classes and agrees with Python's Unicode predicates on ASCII text.
Fallible Python code (code that can raise) is embedded in `Except PyErr`.
-/

set_option maxHeartbeats 1000000
set_option maxRecDepth 100000

namespace IntervalsMCP

/-- A JSON-decodable Python value. -/
inductive Value where
  | null
  | bool (b : Bool)
  | int (n : Int)
  | str (s : String)
  | list (xs : List Value)
  | dict (kvs : List (String × Value))

/-- Python exceptions that the embedded code can raise. -/
inductive PyErr where
  | typeError (msg : String)
  | attributeError (msg : String)
  | valueError (msg : String)
  | runtimeError (msg : String)
  | importError (msg : String)
deriving DecidableEq

/-- The message text of an exception (the model of `str(exc)`). -/
def PyErr.text : PyErr → String
  | .typeError m => m
  | .attributeError m => m
  | .valueError m => m
  | .runtimeError m => m
  | .importError m => m

/-- Python type name of a value, as used in exception messages. -/
def Value.typeName : Value → String
  | .null => "NoneType"
  | .bool _ => "bool"
  | .int _ => "int"
  | .str _ => "str"
  | .list _ => "list"
  | .dict _ => "dict"

mutual

/-- The model of Python `str(value)` as used by f-string interpolation. -/
def pyStr : Value → String
  | .null => "None"
  | .bool b => cond b "True" "False"
  | .int n => toString n
  | .str s => s
  | .list xs => "[" ++ pyReprList xs ++ "]"
  | .dict kvs => "\x7b" ++ pyReprDict kvs ++ "\x7d"

/-- The model of Python `repr(value)` (for elements of containers; string
escaping inside `repr` of a string is modelled by plain quoting, which is
exact for strings free of quotes and control characters). -/
def pyRepr : Value → String
  | .null => "None"
  | .bool b => cond b "True" "False"
  | .int n => toString n
  | .str s => "\x27" ++ s ++ "\x27"
  | .list xs => "[" ++ pyReprList xs ++ "]"
  | .dict kvs => "\x7b" ++ pyReprDict kvs ++ "\x7d"

/-- Comma-separated `repr`s of list elements. -/
def pyReprList : List Value → String
  | [] => ""
  | [v] => pyRepr v
  | v :: rest => pyRepr v ++ ", " ++ pyReprList rest

/-- Comma-separated `'key': repr(value)` renderings of dict items. -/
def pyReprDict : List (String × Value) → String
  | [] => ""
  | [(k, v)] => "\x27" ++ k ++ "\x27: " ++ pyRepr v
  | (k, v) :: rest => "\x27" ++ k ++ "\x27: " ++ pyRepr v ++ ", " ++ pyReprDict rest

end

/-- First-match lookup in an association list: the model of `d[k]` /
membership on a Python dict (which holds each key at most once). -/
def lookupV : List (String × Value) → String → Option Value
  | [], _ => none
  | (k2, v) :: rest, k => if k2 = k then some v else lookupV rest k

/-- The model of `d.get(k, dflt)`. -/
def pyGet (d : List (String × Value)) (k : String) (dflt : Value) : Value :=
  match lookupV d k with
  | some v => v
  | none => dflt

/-- The model of `d.get(k)`, i.e. `d.get(k, None)`. -/
def pyGetN (d : List (String × Value)) (k : String) : Value :=
  pyGet d k .null

/-- Python truthiness of a value. -/
def truthy : Value → Bool
  | .null => false
  | .bool b => b
  | .int n => n != 0
  | .str s => !s.isEmpty
  | .list xs => !xs.isEmpty
  | .dict kvs => !kvs.isEmpty

/-- The model of `len(value)`: defined on strings, lists and dicts, raises
`TypeError` otherwise. -/
def pyLen : Value → Except PyErr Nat
  | .str s => .ok s.length
  | .list xs => .ok xs.length
  | .dict kvs => .ok kvs.length
  | v => .error (.typeError ("object of type \x27" ++ v.typeName ++ "\x27 has no len()"))

/-- The model of `value.get(k, dflt)` on a value that the code assumes to be
a dict: raises `AttributeError` when the value is not a dict. -/
def vGet (v : Value) (k : String) (dflt : Value) : Except PyErr Value :=
  match v with
  | .dict kvs => .ok (pyGet kvs k dflt)
  | _ => .error (.attributeError ("\x27" ++ v.typeName ++ "\x27 object has no attribute \x27get\x27"))

/-- The model of `for x in value`: strings iterate their characters, dicts
iterate their keys, non-iterables raise `TypeError`. -/
def pyIter : Value → Except PyErr (List Value)
  | .list xs => .ok xs
  | .str s => .ok (s.toList.map (fun c => .str (String.mk [c])))
  | .dict kvs => .ok (kvs.map (fun kv => .str kv.1))
  | v => .error (.typeError ("\x27" ++ v.typeName ++ "\x27 object is not iterable"))

/-- The model of `sep.join(lines)`. -/
def joinSep (sep : String) : List String → String
  | [] => ""
  | [x] => x
  | x :: rest => x ++ sep ++ joinSep sep rest

/-- Bool test that `needle` occurs as a contiguous substring of `hay`
(character-list infix). -/
def listPrefixEq : List Char → List Char → Bool
  | [], _ => true
  | _ :: _, [] => false
  | a :: as, b :: bs => a == b && listPrefixEq as bs

/-- Substring search on character lists. -/
def listSubstr (needle : List Char) : List Char → Bool
  | [] => listPrefixEq needle []
  | b :: bs => listPrefixEq needle (b :: bs) || listSubstr needle bs

/-- `strContains hay needle` holds when `needle` occurs inside `hay`. -/
def strContains (hay needle : String) : Bool :=
  listSubstr needle.toList hay.toList

/-! ## `utils/formatting.py`: camel-case detection and custom fields -/

/-- `_is_camelcase`: empty names are rejected; otherwise the first character
must satisfy `islower()` and some character must satisfy `isupper()`. -/
def isCamelcase (fieldName : String) : Bool :=
  match fieldName.toList with
  | [] => false
  | c :: rest => c.isLower && (c :: rest).any Char.isUpper

/-- `_detect_custom_fields`: iterate the payload items in order, skipping
keys that are known and keeping the camelCase ones with their values. -/
def detectCustomFields : List (String × Value) → List String → List (String × Value)
  | [], _ => []
  | (k, v) :: rest, known =>
    if known.contains k then detectCustomFields rest known
    else if isCamelcase k then (k, v) :: detectCustomFields rest known
    else detectCustomFields rest known

/-- The model of the substitution `re.sub(r"([a-z])([A-Z])", r"\1 \2", key)`:
a space is inserted between each lowercase letter and an immediately
following uppercase letter.  (After the two matched characters the regex
engine resumes scanning at the character following the match; since an
uppercase character can never start a new match as its lowercase left-hand
side, plain recursion on the tail is equivalent.) -/
def camelSpace : List Char → List Char
  | [] => []
  | [c] => [c]
  | c1 :: c2 :: rest =>
    if c1.isLower && c2.isUpper then c1 :: ' ' :: camelSpace (c2 :: rest)
    else c1 :: camelSpace (c2 :: rest)

/-- The key-rendering logic of `_format_custom_fields`: space out camelCase
then capitalize the first character; an empty key degrades to the fallback
chain ending in the literal `"Unknown"`. -/
def formatKeyName (key : String) : String :=
  let formattedKey := String.mk (camelSpace key.toList)
  match formattedKey.toList with
  | c :: rest => String.mk (Char.toUpper c :: rest)
  | [] =>
    -- formattedKey is empty iff key is empty, so the `elif key:` arm of the
    -- source is unreachable and the final arm yields `"Unknown"`.
    match key.toList with
    | c :: rest => String.mk (Char.toUpper c :: rest)
    | [] => "Unknown"

/-- The value-rendering logic of `_format_custom_fields`. -/
def formatFieldValue : Value → String
  | .null => "N/A"
  | .bool b => cond b "True" "False"
  | .int n => toString n
  | .str s => s
  | .list xs => pyStr (.list xs)
  | .dict kvs => pyStr (.dict kvs)

/-- Comparison of dict items by key, the order used by
`sorted(custom_fields.items())`.  Python compares the `(key, value)` tuples,
but since a dict holds each key once the comparison never reaches the
values, so ordering by key is exact. -/
def keyLE (a b : String × Value) : Prop :=
  a.1 ≤ b.1

instance : DecidableRel keyLE :=
  -- decided through the character lists: `String.ltb` (the default decision
  -- procedure for `String` order) does not reduce in the kernel, while the
  -- structural decidability of the list order does.
  fun a b => decidable_of_iff (a.1.toList ≤ b.1.toList) String.le_iff_toList_le.symm

instance : IsTotal (String × Value) keyLE :=
  ⟨fun a b => le_total a.1 b.1⟩

instance : IsTrans (String × Value) keyLE :=
  ⟨fun _ _ _ h1 h2 => le_trans h1 h2⟩

/-- The model of `sorted(custom_fields.items())`: a stable sort by key
(Python's `sorted` is stable, making this exact also for the degenerate
association lists that a real dict cannot produce). -/
def sortByKey (kvs : List (String × Value)) : List (String × Value) :=
  List.insertionSort keyLE kvs

/-- `_format_custom_fields`. -/
def formatCustomFields (customFields : List (String × Value)) : List String :=
  if customFields.isEmpty then []
  else (sortByKey customFields).map
    (fun kv => "- " ++ formatKeyName kv.1 ++ ": " ++ formatFieldValue kv.2)

/-- `_KNOWN_ACTIVITY_FIELDS`. -/
def knownActivityFields : List String :=
  ["name", "id", "type", "startTime", "start_date", "description", "distance",
   "duration", "elapsed_time", "moving_time", "elevationGain",
   "total_elevation_gain", "total_elevation_loss", "perceived_exertion",
   "icu_rpe", "feel", "avgPower", "icu_average_watts", "average_watts",
   "icu_weighted_avg_watts", "trainingLoad", "icu_training_load", "icu_ftp",
   "icu_joules", "icu_intensity", "icu_power_hr", "icu_variability_index",
   "avgHr", "average_heartrate", "max_heartrate", "lthr", "icu_resting_hr",
   "decoupling", "average_cadence", "calories", "average_speed", "max_speed",
   "average_stride", "avg_lr_balance", "icu_weight", "session_rpe", "trainer",
   "average_temp", "min_temp", "max_temp", "average_wind_speed",
   "headwind_percent", "tailwind_percent", "icu_ctl", "icu_atl", "trimp",
   "polarization_index", "power_load", "hr_load", "pace_load",
   "icu_efficiency_factor", "device_name", "power_meter", "file_type"]

/-- `_KNOWN_WELLNESS_FIELDS`. -/
def knownWellnessFields : List String :=
  ["id", "date", "ctl", "atl", "rampRate", "ctlLoad", "atlLoad", "sportInfo",
   "updated", "weight", "restingHR", "hrv", "hrvSDNN", "avgSleepingHR",
   "spO2", "systolic", "diastolic", "respiration", "bloodGlucose", "lactate",
   "vo2max", "bodyFat", "abdomen", "baevskySI", "sleepSecs", "sleepHours",
   "sleepQuality", "sleepScore", "readiness", "menstrualPhase",
   "menstrualPhasePredicted", "soreness", "fatigue", "stress", "mood",
   "motivation", "injury", "kcalConsumed", "hydrationVolume", "hydration",
   "steps", "comments", "locked"]

/-! ## Activity formatter -/

/-- A parsed timestamp as produced by `datetime.fromisoformat`. -/
structure DateTime where
  year : Nat
  month : Nat
  day : Nat
  hour : Nat
  minute : Nat
  second : Nat

/-- The model of `datetime.fromisoformat`, an external library primitive: a
parser returning `none` exactly when the library raises `ValueError`. -/
def IsoParser : Type := String → Option DateTime

/-- Zero-padding to two digits, as in `strftime` numeric directives. -/
def pad2 (n : Nat) : String :=
  if n < 10 then "0" ++ toString n else toString n

/-- Zero-padding of the year to four digits (`%Y`). -/
def pad4 (n : Nat) : String :=
  if n < 10 then "000" ++ toString n
  else if n < 100 then "00" ++ toString n
  else if n < 1000 then "0" ++ toString n
  else toString n

/-- `dt.strftime("%Y-%m-%d %H:%M:%S")`. -/
def strftimeYmdHMS (dt : DateTime) : String :=
  pad4 dt.year ++ "-" ++ pad2 dt.month ++ "-" ++ pad2 dt.day ++ " " ++
    pad2 dt.hour ++ ":" ++ pad2 dt.minute ++ ":" ++ pad2 dt.second

/-- `start_time.replace("Z", "+00:00")`: every occurrence of the
single-character pattern is expanded. -/
def zToUtcOffset (s : String) : String :=
  String.mk (s.toList.foldr
    (fun c acc => if c = 'Z' then '+' :: '0' :: '0' :: ':' :: '0' :: '0' :: acc else c :: acc) [])

/-- `_format_activity_start_time`. -/
def formatActivityStartTime (parse : IsoParser) (activity : List (String × Value)) : Value :=
  let startTime := pyGet activity "startTime" (pyGet activity "start_date" (.str "Unknown"))
  match startTime with
  | .str s =>
    if s.length > 10 then
      match parse (zToUtcOffset s) with
      | some dt => .str (strftimeYmdHMS dt)
      | none => .str s
    else .str s
  | v => v

/-- `_format_activity_rpe`.  Note `isinstance(rpe, (int, float))` also
matches booleans, since `bool` is a subclass of `int`. -/
def formatActivityRpe (activity : List (String × Value)) : Value :=
  let rpe := pyGetN activity "perceived_exertion"
  let rpe := match rpe with
    | .null => pyGet activity "icu_rpe" (.str "N/A")
    | v => v
  match rpe with
  | .int n => .str (toString n ++ "/10")
  | .bool b => .str ((cond b "True" "False") ++ "/10")
  | v => v

/-- `_format_activity_feel` (`isinstance(feel, int)` also matches booleans). -/
def formatActivityFeel (activity : List (String × Value)) : Value :=
  let feel := pyGet activity "feel" (.str "N/A")
  match feel with
  | .int n => .str (toString n ++ "/5")
  | .bool b => .str ((cond b "True" "False") ++ "/5")
  | v => v

/-- The fixed template of `format_activity_summary`, before the optional
custom-fields section is appended. -/
def activitySummaryBase (parse : IsoParser) (activity : List (String × Value)) : String :=
  "\nActivity: " ++ pyStr (pyGet activity "name" (.str "Unnamed")) ++
  "\nID: " ++ pyStr (pyGet activity "id" (.str "N/A")) ++
  "\nType: " ++ pyStr (pyGet activity "type" (.str "Unknown")) ++
  "\nDate: " ++ pyStr (formatActivityStartTime parse activity) ++
  "\nDescription: " ++ pyStr (pyGet activity "description" (.str "N/A")) ++
  "\nDistance: " ++ pyStr (pyGet activity "distance" (.int 0)) ++ " meters" ++
  "\nDuration: " ++ pyStr (pyGet activity "duration" (pyGet activity "elapsed_time" (.int 0))) ++ " seconds" ++
  "\nMoving Time: " ++ pyStr (pyGet activity "moving_time" (.str "N/A")) ++ " seconds" ++
  "\nElevation Gain: " ++ pyStr (pyGet activity "elevationGain" (pyGet activity "total_elevation_gain" (.int 0))) ++ " meters" ++
  "\nElevation Loss: " ++ pyStr (pyGet activity "total_elevation_loss" (.str "N/A")) ++ " meters" ++
  "\n" ++
  "\nPower Data:" ++
  "\nAverage Power: " ++ pyStr (pyGet activity "avgPower" (pyGet activity "icu_average_watts" (pyGet activity "average_watts" (.str "N/A")))) ++ " watts" ++
  "\nWeighted Avg Power: " ++ pyStr (pyGet activity "icu_weighted_avg_watts" (.str "N/A")) ++ " watts" ++
  "\nTraining Load: " ++ pyStr (pyGet activity "trainingLoad" (pyGet activity "icu_training_load" (.str "N/A"))) ++
  "\nFTP: " ++ pyStr (pyGet activity "icu_ftp" (.str "N/A")) ++ " watts" ++
  "\nKilojoules: " ++ pyStr (pyGet activity "icu_joules" (.str "N/A")) ++
  "\nIntensity: " ++ pyStr (pyGet activity "icu_intensity" (.str "N/A")) ++
  "\nPower:HR Ratio: " ++ pyStr (pyGet activity "icu_power_hr" (.str "N/A")) ++
  "\nVariability Index: " ++ pyStr (pyGet activity "icu_variability_index" (.str "N/A")) ++
  "\n" ++
  "\nHeart Rate Data:" ++
  "\nAverage Heart Rate: " ++ pyStr (pyGet activity "avgHr" (pyGet activity "average_heartrate" (.str "N/A"))) ++ " bpm" ++
  "\nMax Heart Rate: " ++ pyStr (pyGet activity "max_heartrate" (.str "N/A")) ++ " bpm" ++
  "\nLTHR: " ++ pyStr (pyGet activity "lthr" (.str "N/A")) ++ " bpm" ++
  "\nResting HR: " ++ pyStr (pyGet activity "icu_resting_hr" (.str "N/A")) ++ " bpm" ++
  "\nDecoupling: " ++ pyStr (pyGet activity "decoupling" (.str "N/A")) ++
  "\n" ++
  "\nOther Metrics:" ++
  "\nCadence: " ++ pyStr (pyGet activity "average_cadence" (.str "N/A")) ++ " rpm" ++
  "\nCalories: " ++ pyStr (pyGet activity "calories" (.str "N/A")) ++
  "\nAverage Speed: " ++ pyStr (pyGet activity "average_speed" (.str "N/A")) ++ " m/s" ++
  "\nMax Speed: " ++ pyStr (pyGet activity "max_speed" (.str "N/A")) ++ " m/s" ++
  "\nAverage Stride: " ++ pyStr (pyGet activity "average_stride" (.str "N/A")) ++
  "\nL/R Balance: " ++ pyStr (pyGet activity "avg_lr_balance" (.str "N/A")) ++
  "\nWeight: " ++ pyStr (pyGet activity "icu_weight" (.str "N/A")) ++ " kg" ++
  "\nRPE: " ++ pyStr (formatActivityRpe activity) ++
  "\nSession RPE: " ++ pyStr (pyGet activity "session_rpe" (.str "N/A")) ++
  "\nFeel: " ++ pyStr (formatActivityFeel activity) ++
  "\n" ++
  "\nEnvironment:" ++
  "\nTrainer: " ++ pyStr (pyGet activity "trainer" (.str "N/A")) ++
  "\nAverage Temp: " ++ pyStr (pyGet activity "average_temp" (.str "N/A")) ++ "°C" ++
  "\nMin Temp: " ++ pyStr (pyGet activity "min_temp" (.str "N/A")) ++ "°C" ++
  "\nMax Temp: " ++ pyStr (pyGet activity "max_temp" (.str "N/A")) ++ "°C" ++
  "\nAvg Wind Speed: " ++ pyStr (pyGet activity "average_wind_speed" (.str "N/A")) ++ " km/h" ++
  "\nHeadwind %: " ++ pyStr (pyGet activity "headwind_percent" (.str "N/A")) ++ "%" ++
  "\nTailwind %: " ++ pyStr (pyGet activity "tailwind_percent" (.str "N/A")) ++ "%" ++
  "\n" ++
  "\nTraining Metrics:" ++
  "\nFitness (CTL): " ++ pyStr (pyGet activity "icu_ctl" (.str "N/A")) ++
  "\nFatigue (ATL): " ++ pyStr (pyGet activity "icu_atl" (.str "N/A")) ++
  "\nTRIMP: " ++ pyStr (pyGet activity "trimp" (.str "N/A")) ++
  "\nPolarization Index: " ++ pyStr (pyGet activity "polarization_index" (.str "N/A")) ++
  "\nPower Load: " ++ pyStr (pyGet activity "power_load" (.str "N/A")) ++
  "\nHR Load: " ++ pyStr (pyGet activity "hr_load" (.str "N/A")) ++
  "\nPace Load: " ++ pyStr (pyGet activity "pace_load" (.str "N/A")) ++
  "\nEfficiency Factor: " ++ pyStr (pyGet activity "icu_efficiency_factor" (.str "N/A")) ++
  "\n" ++
  "\nDevice Info:" ++
  "\nDevice: " ++ pyStr (pyGet activity "device_name" (.str "N/A")) ++
  "\nPower Meter: " ++ pyStr (pyGet activity "power_meter" (.str "N/A")) ++
  "\nFile Type: " ++ pyStr (pyGet activity "file_type" (.str "N/A"))

/-- `format_activity_summary` (a total function: every field access carries
a default and every interpolation goes through `str`). -/
def formatActivitySummary (parse : IsoParser) (activity : List (String × Value)) : String :=
  let customFieldsLines := formatCustomFields (detectCustomFields activity knownActivityFields)
  let result := activitySummaryBase parse activity
  if customFieldsLines.isEmpty then result
  else result ++ "\n\nCustom Fields:" ++ "\n" ++ joinSep "\n" customFieldsLines

/-! ## Workout and event formatters -/

/-- `format_workout`.  The interval count is `len(workout.get("intervals", []))`,
which raises `TypeError` when a present `intervals` value has no length. -/
def formatWorkout (workout : List (String × Value)) : Except PyErr String := do
  let n ← pyLen (pyGet workout "intervals" (.list []))
  .ok ("\nWorkout: " ++ pyStr (pyGet workout "name" (.str "Unnamed")) ++
    "\nDescription: " ++ pyStr (pyGet workout "description" (.str "No description")) ++
    "\nSport: " ++ pyStr (pyGet workout "sport" (.str "Unknown")) ++
    "\nDuration: " ++ pyStr (pyGet workout "duration" (.int 0)) ++ " seconds" ++
    "\nTSS: " ++ pyStr (pyGet workout "tss" (.str "N/A")) ++
    "\nIntervals: " ++ toString n ++
    "\n")

/-- `format_event_summary` (total). -/
def formatEventSummary (event : List (String × Value)) : String :=
  let eventDate := pyGet event "start_date_local" (pyGet event "date" (.str "Unknown"))
  let eventType :=
    if truthy (pyGetN event "workout") then "Workout"
    else if truthy (pyGetN event "race") then "Race"
    else "Other"
  let eventName := pyGet event "name" (.str "Unnamed")
  let eventId := pyGet event "id" (.str "N/A")
  let eventDesc := pyGet event "description" (.str "No description")
  "Date: " ++ pyStr eventDate ++
  "\nID: " ++ pyStr eventId ++
  "\nType: " ++ eventType ++
  "\nName: " ++ pyStr eventName ++
  "\nDescription: " ++ pyStr eventDesc

/-- The workout block of `format_event_details` (entered when a `workout`
key is present with a truthy value; its `.get` calls raise on non-dicts). -/
def eventWorkoutBlock (w : Value) : Except PyErr String := do
  let wid ← vGet w "id" (.str "N/A")
  let wsport ← vGet w "sport" (.str "Unknown")
  let wdur ← vGet w "duration" (.int 0)
  let wtss ← vGet w "tss" (.str "N/A")
  let base := "\n\nWorkout Information:" ++
    "\nWorkout ID: " ++ pyStr wid ++
    "\nSport: " ++ pyStr wsport ++
    "\nDuration: " ++ pyStr wdur ++ " seconds" ++
    "\nTSS: " ++ pyStr wtss
  -- `if "intervals" in workout and isinstance(workout["intervals"], list)`;
  -- this point is reached only when `w` is a dict.
  match w with
  | .dict kvs =>
    match lookupV kvs "intervals" with
    | some (.list xs) => .ok (base ++ "\nIntervals: " ++ toString xs.length)
    | _ => .ok base
  | _ => .ok base

/-- `format_event_details`. -/
def formatEventDetails (event : List (String × Value)) : Except PyErr String := do
  let base := "Event Details:" ++
    "\n" ++
    "\nID: " ++ pyStr (pyGet event "id" (.str "N/A")) ++
    "\nDate: " ++ pyStr (pyGet event "date" (.str "Unknown")) ++
    "\nName: " ++ pyStr (pyGet event "name" (.str "Unnamed")) ++
    "\nDescription: " ++ pyStr (pyGet event "description" (.str "No description"))
  let withWorkout ← (match lookupV event "workout" with
    | some w =>
      if truthy w then do
        let block ← eventWorkoutBlock w
        pure (base ++ block)
      else pure base
    | none => pure base)
  let withRace :=
    if truthy (pyGetN event "race") then
      withWorkout ++ "\n\nRace Information:" ++
        "\nPriority: " ++ pyStr (pyGet event "priority" (.str "N/A")) ++
        "\nResult: " ++ pyStr (pyGet event "result" (.str "N/A"))
    else withWorkout
  match lookupV event "calendar" with
  | some cal => do
    let calName ← vGet cal "name" (.str "N/A")
    .ok (withRace ++ "\n\nCalendar: " ++ pyStr calName)
  | none => .ok withRace

/-! ## Wellness formatter -/

/-- `entries.get(k)` when the source guards with `is not None`: `some v`
exactly when the key is present with a non-null value. -/
def getNonNull (entries : List (String × Value)) (k : String) : Option Value :=
  match lookupV entries k with
  | some .null => none
  | some v => some v
  | none => none

/-- `_format_training_metrics`. -/
def formatTrainingMetrics (entries : List (String × Value)) : List String :=
  [("ctl", "Fitness (CTL)"), ("atl", "Fatigue (ATL)"), ("rampRate", "Ramp Rate"),
   ("ctlLoad", "CTL Load"), ("atlLoad", "ATL Load")].filterMap
    (fun kl => (getNonNull entries kl.1).map
      (fun v => "- " ++ kl.2 ++ ": " ++ pyStr v))

/-- `_format_sport_info`: iterates a truthy `sportInfo` value, keeping the
dict elements whose `eftp` is present and non-null. -/
def formatSportInfo (entries : List (String × Value)) : Except PyErr (List String) :=
  if truthy (pyGetN entries "sportInfo") then do
    let items ← pyIter (pyGet entries "sportInfo" (.list []))
    .ok (items.filterMap (fun sport =>
      match sport with
      | .dict kvs =>
        (match lookupV kvs "eftp" with
         | some .null => none
         | some v => some ("- " ++ pyStr (pyGetN kvs "type") ++ ": eFTP = " ++ pyStr v)
         | none => none)
      | _ => none))
  else .ok []

/-- `_format_vital_signs`: one line per present non-null metric, with
`systolic`/`diastolic` merged into one blood-pressure line when both are
present and the lone `systolic`/`diastolic` lines suppressed. -/
def formatVitalSigns (entries : List (String × Value)) : List String :=
  [("weight", "Weight", "kg"), ("restingHR", "Resting HR", "bpm"),
   ("hrv", "HRV", ""), ("hrvSDNN", "HRV SDNN", ""),
   ("avgSleepingHR", "Average Sleeping HR", "bpm"), ("spO2", "SpO2", "%"),
   ("systolic", "Systolic BP", ""), ("diastolic", "Diastolic BP", ""),
   ("respiration", "Respiration", "breaths/min"),
   ("bloodGlucose", "Blood Glucose", "mmol/L"), ("lactate", "Lactate", "mmol/L"),
   ("vo2max", "VO2 Max", "ml/kg/min"), ("bodyFat", "Body Fat", "%"),
   ("abdomen", "Abdomen", "cm"), ("baevskySI", "Baevsky Stress Index", "")].filterMap
    (fun klu =>
      match getNonNull entries klu.1 with
      | none => none
      | some v =>
        if klu.1 = "systolic" then
          match getNonNull entries "diastolic" with
          | some d => some ("- Blood Pressure: " ++ pyStr v ++ "/" ++ pyStr d ++ " mmHg")
          | none => none
        else if klu.1 = "diastolic" then none
        else some ("- " ++ klu.2.1 ++ ": " ++ pyStr v ++
          (if klu.2.2.isEmpty then "" else " " ++ klu.2.2)))

/-- Round-half-even of `num / den` (`den > 0`) to the nearest integer, the
rounding used when formatting the sleep-hours quotient. -/
def roundHalfEven (num : Int) (den : Int) : Int :=
  let q := Int.ediv num den
  let r := Int.emod num den
  if 2 * r < den then q
  else if 2 * r > den then q + 1
  else if q % 2 = 0 then q else q + 1

/-- `f"{secs / 3600:.2f}"` for an integer number of seconds: the quotient
rendered with two decimal places.  (CPython formats the IEEE double
`secs / 3600`; rounding the exact rational instead can differ only on
ties introduced by binary rounding error, which no claim exercises.) -/
def format2fDiv3600 (secs : Int) : String :=
  let cents := roundHalfEven (secs * 100) 3600
  let sign := if cents < 0 then "-" else ""
  let a := cents.natAbs
  sign ++ toString (a / 100) ++ "." ++ pad2 (a % 100)

/-- The `sleepSecs / 3600` computation: a `TypeError` unless the value is a
number (booleans count as integers in Python). -/
def sleepHoursFromSecs : Value → Except PyErr String
  | .int n => .ok (format2fDiv3600 n)
  | .bool b => .ok (format2fDiv3600 (cond b 1 0))
  | v => .error (.typeError ("unsupported operand type(s) for /: \x27" ++ v.typeName ++ "\x27 and \x27int\x27"))

/-- `quality_labels.get(quality_value, str(quality_value))` under Python
equality: the table keys are the integers 1–4, `True == 1` (so a boolean
`True` hits the `1` entry), unhashable values raise `TypeError`, and
everything else falls to the default `str(quality_value)`. -/
def sleepQualityText : Value → Except PyErr String
  | .int 1 => .ok "Great"
  | .int 2 => .ok "Good"
  | .int 3 => .ok "Average"
  | .int 4 => .ok "Poor"
  | .bool true => .ok "Great"
  | .list _ => .error (.typeError "unhashable type: \x27list\x27")
  | .dict _ => .error (.typeError "unhashable type: \x27dict\x27")
  | v => .ok (pyStr v)

/-- `_format_sleep_recovery`. -/
def formatSleepRecovery (entries : List (String × Value)) : Except PyErr (List String) := do
  let sleepHours ← (match getNonNull entries "sleepSecs" with
    | some v => do
      let s ← sleepHoursFromSecs v
      pure (some s)
    | none =>
      match getNonNull entries "sleepHours" with
      | some v => pure (some (pyStr v))
      | none => pure none)
  let lines := match sleepHours with
    | some s => ["  Sleep: " ++ s ++ " hours"]
    | none => []
  let lines ← (match getNonNull entries "sleepQuality" with
    | some qv => do
      let qt ← sleepQualityText qv
      pure (lines ++ ["  Sleep Quality: " ++ pyStr qv ++ " (" ++ qt ++ ")"])
    | none => pure lines)
  let lines := match getNonNull entries "sleepScore" with
    | some v => lines ++ ["  Device Sleep Score: " ++ pyStr v ++ "/100"]
    | none => lines
  let lines := match getNonNull entries "readiness" with
    | some v => lines ++ ["  Readiness: " ++ pyStr v ++ "/10"]
    | none => lines
  .ok lines

/-- `str(x).capitalize()`: first character uppercased, the rest lowercased. -/
def pyCapitalize (s : String) : String :=
  match s.toList with
  | [] => ""
  | c :: rest => String.mk (Char.toUpper c :: rest.map Char.toLower)

/-- `_format_menstrual_tracking`. -/
def formatMenstrualTracking (entries : List (String × Value)) : List String :=
  (match getNonNull entries "menstrualPhase" with
   | some v => ["  Menstrual Phase: " ++ pyCapitalize (pyStr v)]
   | none => []) ++
  (match getNonNull entries "menstrualPhasePredicted" with
   | some v => ["  Predicted Phase: " ++ pyCapitalize (pyStr v)]
   | none => [])

/-- `_format_subjective_feelings`. -/
def formatSubjectiveFeelings (entries : List (String × Value)) : List String :=
  [("soreness", "Soreness"), ("fatigue", "Fatigue"), ("stress", "Stress"),
   ("mood", "Mood"), ("motivation", "Motivation"), ("injury", "Injury Level")].filterMap
    (fun kl => (getNonNull entries kl.1).map
      (fun v => "  " ++ kl.2 ++ ": " ++ pyStr v ++ "/10"))

/-- `_format_nutrition_hydration`. -/
def formatNutritionHydration (entries : List (String × Value)) : List String :=
  ([("kcalConsumed", "Calories Consumed"), ("hydrationVolume", "Hydration Volume")].filterMap
    (fun kl => (getNonNull entries kl.1).map
      (fun v => "- " ++ kl.2 ++ ": " ++ pyStr v))) ++
  (match getNonNull entries "hydration" with
   | some v => ["  Hydration Score: " ++ pyStr v ++ "/10"]
   | none => [])

/-- `_add_wellness_section`: append the titled section when non-empty. -/
def addWellnessSection (lines sectionLines : List String) (sectionTitle : String) : List String :=
  if sectionLines.isEmpty then lines
  else lines ++ [sectionTitle] ++ sectionLines ++ [""]

/-- The lines of `format_wellness_entry` before the optional custom-fields
section. -/
def wellnessBaseLines (entries : List (String × Value)) : Except PyErr (List String) := do
  let l0 := ["Wellness Data:", "Date: " ++ pyStr (pyGet entries "id" (.str "N/A")), ""]
  let l1 := addWellnessSection l0 (formatTrainingMetrics entries) "Training Metrics:"
  let sportInfo ← formatSportInfo entries
  let l2 := addWellnessSection l1 sportInfo "Sport-Specific Info:"
  let l3 := addWellnessSection l2 (formatVitalSigns entries) "Vital Signs:"
  let sleep ← formatSleepRecovery entries
  let l4 := addWellnessSection l3 sleep "Sleep & Recovery:"
  let l5 := addWellnessSection l4 (formatMenstrualTracking entries) "Menstrual Tracking:"
  let l6 := addWellnessSection l5 (formatSubjectiveFeelings entries) "Subjective Feelings:"
  let l7 := addWellnessSection l6 (formatNutritionHydration entries) "Nutrition & Hydration:"
  let l8 := match getNonNull entries "steps" with
    | some v => l7 ++ ["Activity:", "- Steps: " ++ pyStr v, ""]
    | none => l7
  let l9 :=
    if truthy (pyGetN entries "comments") then
      l8 ++ ["Comments: " ++ pyStr (pyGetN entries "comments")]
    else l8
  let l10 :=
    if (lookupV entries "locked").isSome then
      l9 ++ ["Status: " ++ (if truthy (pyGetN entries "locked") then "Locked" else "Unlocked")]
    else l9
  .ok l10

/-- `format_wellness_entry`. -/
def formatWellnessEntry (entries : List (String × Value)) : Except PyErr String := do
  let l10 ← wellnessBaseLines entries
  let customFieldsLines := formatCustomFields (detectCustomFields entries knownWellnessFields)
  let l11 :=
    if customFieldsLines.isEmpty then l10
    else l10 ++ ["", "Custom Fields:"] ++ customFieldsLines
  .ok (joinSep "\n" l11)

/-! ## Interval-analysis formatter -/

/-- One numbered block of `format_intervals` for an individual interval
(already known to be a dict); numeric fallbacks are `0`, the zone label
falls back to `"N/A"` and the label to `f"Interval {i}"`. -/
def formatOneInterval (i : Nat) (kvs : List (String × Value)) : String :=
  "[" ++ toString i ++ "] " ++ pyStr (pyGet kvs "label" (.str ("Interval " ++ toString i))) ++
    " (" ++ pyStr (pyGet kvs "type" (.str "Unknown")) ++ ")" ++
  "\nDuration: " ++ pyStr (pyGet kvs "elapsed_time" (.int 0)) ++ " seconds (moving: " ++
    pyStr (pyGet kvs "moving_time" (.int 0)) ++ " seconds)" ++
  "\nDistance: " ++ pyStr (pyGet kvs "distance" (.int 0)) ++ " meters" ++
  "\nStart-End Indices: " ++ pyStr (pyGet kvs "start_index" (.int 0)) ++ "-" ++
    pyStr (pyGet kvs "end_index" (.int 0)) ++
  "\n" ++
  "\nPower Metrics:" ++
  "\n  Average Power: " ++ pyStr (pyGet kvs "average_watts" (.int 0)) ++ " watts (" ++
    pyStr (pyGet kvs "average_watts_kg" (.int 0)) ++ " W/kg)" ++
  "\n  Max Power: " ++ pyStr (pyGet kvs "max_watts" (.int 0)) ++ " watts (" ++
    pyStr (pyGet kvs "max_watts_kg" (.int 0)) ++ " W/kg)" ++
  "\n  Weighted Avg Power: " ++ pyStr (pyGet kvs "weighted_average_watts" (.int 0)) ++ " watts" ++
  "\n  Intensity: " ++ pyStr (pyGet kvs "intensity" (.int 0)) ++
  "\n  Training Load: " ++ pyStr (pyGet kvs "training_load" (.int 0)) ++
  "\n  Joules: " ++ pyStr (pyGet kvs "joules" (.int 0)) ++
  "\n  Joules > FTP: " ++ pyStr (pyGet kvs "joules_above_ftp" (.int 0)) ++
  "\n  Power Zone: " ++ pyStr (pyGet kvs "zone" (.str "N/A")) ++ " (" ++
    pyStr (pyGet kvs "zone_min_watts" (.int 0)) ++ "-" ++
    pyStr (pyGet kvs "zone_max_watts" (.int 0)) ++ " watts)" ++
  "\n  W\x27 Balance: Start " ++ pyStr (pyGet kvs "wbal_start" (.int 0)) ++ ", End " ++
    pyStr (pyGet kvs "wbal_end" (.int 0)) ++
  "\n  L/R Balance: " ++ pyStr (pyGet kvs "avg_lr_balance" (.int 0)) ++
  "\n  Variability: " ++ pyStr (pyGet kvs "w5s_variability" (.int 0)) ++
  "\n  Torque: Avg " ++ pyStr (pyGet kvs "average_torque" (.int 0)) ++ ", Min " ++
    pyStr (pyGet kvs "min_torque" (.int 0)) ++ ", Max " ++
    pyStr (pyGet kvs "max_torque" (.int 0)) ++
  "\n" ++
  "\nHeart Rate & Metabolic:" ++
  "\n  Heart Rate: Avg " ++ pyStr (pyGet kvs "average_heartrate" (.int 0)) ++ ", Min " ++
    pyStr (pyGet kvs "min_heartrate" (.int 0)) ++ ", Max " ++
    pyStr (pyGet kvs "max_heartrate" (.int 0)) ++ " bpm" ++
  "\n  Decoupling: " ++ pyStr (pyGet kvs "decoupling" (.int 0)) ++
  "\n  DFA α1: " ++ pyStr (pyGet kvs "average_dfa_a1" (.int 0)) ++
  "\n  Respiration: " ++ pyStr (pyGet kvs "average_respiration" (.int 0)) ++ " breaths/min" ++
  "\n  EPOC: " ++ pyStr (pyGet kvs "average_epoc" (.int 0)) ++
  "\n  SmO2: " ++ pyStr (pyGet kvs "average_smo2" (.int 0)) ++ "% / " ++
    pyStr (pyGet kvs "average_smo2_2" (.int 0)) ++ "%" ++
  "\n  THb: " ++ pyStr (pyGet kvs "average_thb" (.int 0)) ++ " / " ++
    pyStr (pyGet kvs "average_thb_2" (.int 0)) ++
  "\n" ++
  "\nSpeed & Cadence:" ++
  "\n  Speed: Avg " ++ pyStr (pyGet kvs "average_speed" (.int 0)) ++ ", Min " ++
    pyStr (pyGet kvs "min_speed" (.int 0)) ++ ", Max " ++
    pyStr (pyGet kvs "max_speed" (.int 0)) ++ " m/s" ++
  "\n  GAP: " ++ pyStr (pyGet kvs "gap" (.int 0)) ++ " m/s" ++
  "\n  Cadence: Avg " ++ pyStr (pyGet kvs "average_cadence" (.int 0)) ++ ", Min " ++
    pyStr (pyGet kvs "min_cadence" (.int 0)) ++ ", Max " ++
    pyStr (pyGet kvs "max_cadence" (.int 0)) ++ " rpm" ++
  "\n  Stride: " ++ pyStr (pyGet kvs "average_stride" (.int 0)) ++
  "\n" ++
  "\nElevation & Environment:" ++
  "\n  Elevation Gain: " ++ pyStr (pyGet kvs "total_elevation_gain" (.int 0)) ++ " meters" ++
  "\n  Altitude: Min " ++ pyStr (pyGet kvs "min_altitude" (.int 0)) ++ ", Max " ++
    pyStr (pyGet kvs "max_altitude" (.int 0)) ++ " meters" ++
  "\n  Gradient: " ++ pyStr (pyGet kvs "average_gradient" (.int 0)) ++ "%" ++
  "\n  Temperature: " ++ pyStr (pyGet kvs "average_temp" (.int 0)) ++ "°C (Weather: " ++
    pyStr (pyGet kvs "average_weather_temp" (.int 0)) ++ "°C, Feels like: " ++
    pyStr (pyGet kvs "average_feels_like" (.int 0)) ++ "°C)" ++
  "\n  Wind: Speed " ++ pyStr (pyGet kvs "average_wind_speed" (.int 0)) ++ " km/h, Gust " ++
    pyStr (pyGet kvs "average_wind_gust" (.int 0)) ++ " km/h, Direction " ++
    pyStr (pyGet kvs "prevailing_wind_deg" (.int 0)) ++ "°" ++
  "\n  Headwind: " ++ pyStr (pyGet kvs "headwind_percent" (.int 0)) ++ "%, Tailwind: " ++
    pyStr (pyGet kvs "tailwind_percent" (.int 0)) ++ "%" ++
  "\n\n"

/-- The 1-based enumeration of individual-interval blocks; each element must
support `.get`, i.e. be a dict. -/
def formatIntervalItems (i : Nat) : List Value → Except PyErr String
  | [] => .ok ""
  | v :: rest =>
    match v with
    | .dict kvs => do
      let s ← formatIntervalItems (i + 1) rest
      .ok (formatOneInterval i kvs ++ s)
    | other => .error (.attributeError ("\x27" ++ other.typeName ++ "\x27 object has no attribute \x27get\x27"))

/-- One block of `format_intervals` for an interval group. -/
def formatOneGroup (i : Nat) (kvs : List (String × Value)) : String :=
  "Group: " ++ pyStr (pyGet kvs "id" (.str ("Group " ++ toString i))) ++ " (Contains " ++
    pyStr (pyGet kvs "count" (.int 0)) ++ " intervals)" ++
  "\nDuration: " ++ pyStr (pyGet kvs "elapsed_time" (.int 0)) ++ " seconds (moving: " ++
    pyStr (pyGet kvs "moving_time" (.int 0)) ++ " seconds)" ++
  "\nDistance: " ++ pyStr (pyGet kvs "distance" (.int 0)) ++ " meters" ++
  "\nStart-End Indices: " ++ pyStr (pyGet kvs "start_index" (.int 0)) ++ "-N/A" ++
  "\n" ++
  "\nPower: Avg " ++ pyStr (pyGet kvs "average_watts" (.int 0)) ++ " watts (" ++
    pyStr (pyGet kvs "average_watts_kg" (.int 0)) ++ " W/kg), Max " ++
    pyStr (pyGet kvs "max_watts" (.int 0)) ++ " watts" ++
  "\nW. Avg Power: " ++ pyStr (pyGet kvs "weighted_average_watts" (.int 0)) ++
    " watts, Intensity: " ++ pyStr (pyGet kvs "intensity" (.int 0)) ++
  "\nHeart Rate: Avg " ++ pyStr (pyGet kvs "average_heartrate" (.int 0)) ++ ", Max " ++
    pyStr (pyGet kvs "max_heartrate" (.int 0)) ++ " bpm" ++
  "\nSpeed: Avg " ++ pyStr (pyGet kvs "average_speed" (.int 0)) ++ ", Max " ++
    pyStr (pyGet kvs "max_speed" (.int 0)) ++ " m/s" ++
  "\nCadence: Avg " ++ pyStr (pyGet kvs "average_cadence" (.int 0)) ++ ", Max " ++
    pyStr (pyGet kvs "max_cadence" (.int 0)) ++ " rpm" ++
  "\n\n"

/-- The 1-based enumeration of group blocks. -/
def formatGroupItems (i : Nat) : List Value → Except PyErr String
  | [] => .ok ""
  | v :: rest =>
    match v with
    | .dict kvs => do
      let s ← formatGroupItems (i + 1) rest
      .ok (formatOneGroup i kvs ++ s)
    | other => .error (.attributeError ("\x27" ++ other.typeName ++ "\x27 object has no attribute \x27get\x27"))

/-- `format_intervals`. -/
def formatIntervals (intervalsData : List (String × Value)) : Except PyErr String := do
  let header := "Intervals Analysis:" ++
    "\n" ++
    "\nID: " ++ pyStr (pyGet intervalsData "id" (.str "N/A")) ++
    "\nAnalyzed: " ++ pyStr (pyGet intervalsData "analyzed" (.str "N/A")) ++
    "\n" ++
    "\n"
  let withIntervals ← (match lookupV intervalsData "icu_intervals" with
    | some v =>
      if truthy v then do
        let items ← pyIter v
        let blocks ← formatIntervalItems 1 items
        pure (header ++ "Individual Intervals:\n\n" ++ blocks)
      else pure header
    | none => pure header)
  match lookupV intervalsData "icu_groups" with
  | some v =>
    if truthy v then do
      let items ← pyIter v
      let blocks ← formatGroupItems 1 items
      .ok (withIntervals ++ "Interval Groups:\n\n" ++ blocks)
    else .ok withIntervals
  | none => .ok withIntervals

/-! ## `mcp_compat.py`: the tool-registry shim

The registry itself (`FastMCP.__init__`, `.tool()`, `get_tools()`) is pure
bookkeeping and is embedded directly.  `FastMCP.run()` probes external host
runtimes by duck typing; the hosts are external collaborators, so their
observable surface is embedded as parameters (`RuntimeServer`, the candidate
list, and the fallback), while the control flow of `run()` itself — strategy
order, `TypeError`-only retries, swallowed retry failures, the fallback, and
the final error message — follows the source.  The model records every host
call in a trace so that invocation counts can be stated. -/

/-- A Python callable as the registry sees it: `__name__`, `__doc__ or ""`,
and an identity (distinct callables have distinct ids). -/
structure Func where
  name : String
  doc : String
  id : Nat
deriving DecidableEq

/-- The `Tool` record of `mcp_compat.py`: `name or func.__name__`. -/
structure MCTool where
  func : Func
  name : String
  doc : String
deriving DecidableEq

/-- `Tool.__init__`. -/
def MCTool.ofFunc (f : Func) (name : Option String) : MCTool :=
  { func := f, name := name.getD f.name, doc := f.doc }

/-- Insertion into an insertion-ordered dict: replacing an existing key
keeps its position, a new key is appended. -/
def dictInsert {α : Type} : List (String × α) → String → α → List (String × α)
  | [], k, v => [(k, v)]
  | (k2, v2) :: rest, k, v =>
    if k2 = k then (k2, v) :: rest else (k2, v2) :: dictInsert rest k v

/-- First-match lookup in a generic insertion-ordered dict. -/
def lookupD {α : Type} : List (String × α) → String → Option α
  | [], _ => none
  | (k2, v) :: rest, k => if k2 = k then some v else lookupD rest k

/-- The `FastMCP` registry state: the server name and the name→tool dict. -/
structure FastMCPState where
  name : String
  tools : List (String × MCTool)
deriving DecidableEq

/-- `FastMCP(name, lifespan=...)` (the lifespan hook is opaque to the
claims and omitted from the state). -/
def FastMCPState.init (name : String) : FastMCPState :=
  { name := name, tools := [] }

/-- The decorator produced by `FastMCP.tool()`: records the callable under
its declared name and returns the original callable unchanged. -/
def FastMCPState.toolDecorator (m : FastMCPState) (f : Func) : FastMCPState × Func :=
  let t := MCTool.ofFunc f none
  ({ m with tools := dictInsert m.tools t.name t }, f)

/-- `get_tools()`: the dict values in insertion order. -/
def FastMCPState.getTools (m : FastMCPState) : List MCTool :=
  m.tools.map (·.2)

/-- Decorating a sequence of callables in order. -/
def registerAll (m : FastMCPState) : List Func → FastMCPState
  | [] => m
  | f :: rest => registerAll (m.toolDecorator f).1 rest

/-- The outcome of one call into the host: normal return or an exception. -/
inductive CallRes where
  | ok
  | raise (e : PyErr)
deriving DecidableEq

/-- Whether an exception is a `TypeError` (what `except TypeError` catches;
the arity-mismatch errors retried by `run()` are `TypeError`s). -/
def PyErr.isTypeError : PyErr → Bool
  | .typeError _ => true
  | _ => false

/-- Behavior of a host `register_tool` attribute: the outcome of the
full-arity call `register_tool(name=..., func=..., description=...)` and of
the two-argument retry. -/
structure RegisterAttr where
  full : CallRes
  short : CallRes
deriving DecidableEq

/-- Behavior of a host `tool` decorator factory: outcomes of
`tool(name=..., description=...)`, of applying the returned decorator, of
the one-argument retry `tool(name)`, and of applying its decorator. -/
structure ToolAttr where
  makeFull : CallRes
  applyFull : CallRes
  makeShort : CallRes
  applyShort : CallRes
deriving DecidableEq

/-- Behavior of a host `FastMCP`/`Server` class: construction, its own
`tool()(func)` registration, and its optional `run` method. -/
structure ServerClassAttr where
  init : CallRes
  toolCall : CallRes
  hasRun : Bool
  runRes : CallRes
deriving DecidableEq

/-- The duck-typed surface of an imported host runtime object. -/
structure RuntimeServer where
  registerAttr : Option RegisterAttr
  toolAttr : Option ToolAttr
  serverClass : Option ServerClassAttr
  runEntry : Option CallRes
deriving DecidableEq

/-- Observable host interactions, recorded in order. -/
inductive Event where
  | registerFull (name : String) (funcId : Nat)
  | registerShort (name : String) (funcId : Nat)
  | toolFactoryFull (name : String)
  | toolFactoryShort (name : String)
  | decoApplied (name : String) (funcId : Nat)
  | classInit
  | classToolReg (funcId : Nat)
  | hostRun
  | classRun
  | fallbackReg (name : String) (funcId : Nat)
  | fallbackRun
deriving DecidableEq

/-- State threaded through the binding loop: the trace of host calls, the
`(name, callable)` pairs successfully registered with the host, and whether
a host server class instance `rt` exists in locals. -/
structure BindState where
  trace : List Event
  registered : List (String × Nat)
  rtCreated : Bool
deriving DecidableEq

/-- Binding one tool using the three strategies of `FastMCP.run()`, in
order.  Returns the new state, or the exception that propagates to the
fallback handler. -/
def bindTool (s : RuntimeServer) (st : BindState) (t : MCTool) : Except PyErr BindState :=
  match s.registerAttr with
  | some ra =>
    -- Strategy 1: register_tool(name=..., func=..., description=...),
    -- retried without the description only on TypeError.
    (match ra.full with
     | .ok => .ok { st with
         trace := st.trace ++ [.registerFull t.name t.func.id],
         registered := st.registered ++ [(t.name, t.func.id)] }
     | .raise e =>
       if e.isTypeError then
         match ra.short with
         | .ok => .ok { st with
             trace := st.trace ++ [.registerFull t.name t.func.id, .registerShort t.name t.func.id],
             registered := st.registered ++ [(t.name, t.func.id)] }
         | .raise e2 => .error e2
       else .error e)
  | none =>
    match s.toolAttr with
    | some ta =>
      -- Strategy 2: deco = tool(name=..., description=...); deco(func),
      -- retried as tool(name) on TypeError, with retry failures swallowed.
      let retry : BindState → Except PyErr (Option BindState) := fun st1 =>
        match ta.makeShort with
        | .ok =>
          match ta.applyShort with
          | .ok => .ok (some { st1 with
              trace := st1.trace ++ [.toolFactoryShort t.name, .decoApplied t.name t.func.id],
              registered := st1.registered ++ [(t.name, t.func.id)] })
          | .raise _ => .ok none
        | .raise _ => .ok none
      let afterTwo : Except PyErr (Option BindState) :=
        match ta.makeFull with
        | .ok =>
          (match ta.applyFull with
           | .ok => .ok (some { st with
               trace := st.trace ++ [.toolFactoryFull t.name, .decoApplied t.name t.func.id],
               registered := st.registered ++ [(t.name, t.func.id)] })
           | .raise e =>
             if e.isTypeError then
               retry { st with trace := st.trace ++ [.toolFactoryFull t.name, .decoApplied t.name t.func.id] }
             else .error e)
        | .raise e =>
          if e.isTypeError then
            retry { st with trace := st.trace ++ [.toolFactoryFull t.name] }
          else .error e
      (match afterTwo with
       | .error e => .error e
       | .ok (some st2) => .ok st2
       | .ok none => bindToolClass s st t)
    | none => bindToolClass s st t
where
  /-- Strategy 3: instantiate a host `FastMCP`/`Server` class and use its
  own decorator; any failure leaves the tool unregistered, which raises the
  `Couldn't register tool` RuntimeError. -/
  bindToolClass (s : RuntimeServer) (st : BindState) (t : MCTool) : Except PyErr BindState :=
    let unregistered : Except PyErr BindState :=
      .error (.runtimeError ("Couldn\x27t register tool " ++ t.name ++ " with discovered OpenAI runtime"))
    match s.serverClass with
    | some sc =>
      (match sc.init with
       | .ok =>
         (match sc.toolCall with
          | .ok => .ok { st with
              trace := st.trace ++ [.classInit, .classToolReg t.func.id],
              registered := st.registered ++ [(t.name, t.func.id)],
              rtCreated := true }
          | .raise _ =>
            -- rt is in locals, but `registered` stays False, so the
            -- RuntimeError below fires before rt is ever consulted.
            unregistered)
       | .raise _ => unregistered)
    | none => unregistered

/-- Binding every registered tool in order. -/
def bindTools (s : RuntimeServer) (st : BindState) : List MCTool → Except PyErr BindState
  | [] => .ok st
  | t :: rest => do
    let st2 ← bindTool s st t
    bindTools s st2 rest

/-- The main phase of `FastMCP.run()`: resolve the first importable
candidate, bind every tool, then find and call a `run`/`serve` entry point. -/
def mainPhase (reg : FastMCPState) (candidates : List (Option RuntimeServer)) :
    Except PyErr BindState :=
  match candidates.findSome? (fun c => c) with
  | none => .error (.importError "No OpenAI MCP runtime candidate imported")
  | some s => do
    let st ← bindTools s { trace := [], registered := [], rtCreated := false } reg.getTools
    match s.runEntry with
    | some res =>
      (match res with
       | .ok => .ok { st with trace := st.trace ++ [.hostRun] }
       | .raise e => .error e)
    | none =>
      match s.serverClass with
      | some sc =>
        if st.rtCreated && sc.hasRun then
          match sc.runRes with
          | .ok => .ok { st with trace := st.trace ++ [.classRun] }
          | .raise e => .error e
        else .error (.runtimeError "Imported an OpenAI MCP runtime but couldn\x27t find a run/serve entrypoint")
      | none => .error (.runtimeError "Imported an OpenAI MCP runtime but couldn\x27t find a run/serve entrypoint")

/-- `str(list_of_names)`: the Python rendering of the registered-tool name
list interpolated into the final error message. -/
def pyStrNameList (names : List String) : String :=
  "[" ++ joinSep ", " (names.map (fun n => "\x27" ++ n ++ "\x27")) ++ "]"

/-- The final error message of `FastMCP.run()`. -/
def runFailureMessage (toolNames : List String) (exc : PyErr) : String :=
  "mcp_compat.FastMCP.run() couldn\x27t start OpenAI MCP runtime or fall back to the installed `mcp` package. " ++
  "Registered tools: " ++ pyStrNameList toolNames ++ ". Original error: " ++ exc.text

/-- `FastMCP.run()`: the main phase, then — on any failure — the fallback
to the installed `mcp` package (modelled by `fallback`: `none` when the
fallback construct/re-register/run sequence succeeds, `some e` when it
raises `e`, which the handler swallows before raising the final
RuntimeError). -/
def runModel (reg : FastMCPState) (candidates : List (Option RuntimeServer))
    (fallback : Option PyErr) : Except PyErr BindState :=
  match mainPhase reg candidates with
  | .ok st => .ok st
  | .error exc =>
    match fallback with
    | none => .ok
        { trace := (reg.getTools.map (fun t => Event.fallbackReg t.name t.func.id)) ++ [.fallbackRun],
          registered := reg.getTools.map (fun t => (t.name, t.func.id)),
          rtCreated := false }
    | some _ => .error (.runtimeError (runFailureMessage (reg.getTools.map (·.name)) exc))

/-- The name carried by a `register_tool` invocation event, if any. -/
def registerCallName : Event → Option String
  | .registerFull n _ => some n
  | .registerShort n _ => some n
  | _ => none

/-- A fake host exposing only a three-argument
`register_tool(name, func, description)` entry point plus a `run` entry. -/
def register3Host : RuntimeServer :=
  { registerAttr := some { full := .ok, short := .ok },
    toolAttr := none, serverClass := none, runEntry := some .ok }

/-- A fake host whose `register_tool` rejects the description keyword with
an arity `TypeError` but accepts the two-argument retry. -/
def register2Host : RuntimeServer :=
  { registerAttr := some
      { full := .raise (.typeError "register_tool() got an unexpected keyword argument \x27description\x27"),
        short := .ok },
    toolAttr := none, serverClass := none, runEntry := some .ok }

/-- A fake host exposing only a `tool(name, description)` decorator factory
plus a `run` entry. -/
def toolDecoHost : RuntimeServer :=
  { registerAttr := none,
    toolAttr := some { makeFull := .ok, applyFull := .ok, makeShort := .ok, applyShort := .ok },
    serverClass := none, runEntry := some .ok }

/-! ## Shape predicates

The structured-field assumptions under which the fallible formatters cannot
raise: they delimit exactly the `.get`/`len`/iteration/arithmetic
type-confusions of the source. -/

/-- Values accepted by `len()`. -/
def lenOk : Value → Bool
  | .str _ | .list _ | .dict _ => true
  | _ => false

/-- Values that are dicts. -/
def isDictV : Value → Bool
  | .dict _ => true
  | _ => false

/-- Values accepted by iteration. -/
def iterOk : Value → Bool
  | .str _ | .list _ | .dict _ => true
  | _ => false

/-- Values accepted by the `/ 3600` arithmetic (numbers; booleans count). -/
def numOk : Value → Bool
  | .int _ | .bool _ => true
  | _ => false

/-- Hashable values (everything except sequences and mappings). -/
def hashableOk : Value → Bool
  | .list _ | .dict _ => false
  | _ => true

/-- `format_workout` raises only when a present `intervals` value has no
length. -/
def workoutShapeOk (w : List (String × Value)) : Bool :=
  lenOk (pyGet w "intervals" (.list []))

/-- `format_event_details` raises only when a truthy `workout` or a present
`calendar` value is not a dict. -/
def eventDetailsShapeOk (e : List (String × Value)) : Bool :=
  (match lookupV e "workout" with
   | some w => !truthy w || isDictV w
   | none => true) &&
  (match lookupV e "calendar" with
   | some c => isDictV c
   | none => true)

/-- `format_wellness_entry` raises only when a truthy `sportInfo` is not
iterable, a non-null `sleepSecs` is not a number, or a non-null
`sleepQuality` is unhashable. -/
def wellnessShapeOk (e : List (String × Value)) : Bool :=
  (!truthy (pyGetN e "sportInfo") || iterOk (pyGet e "sportInfo" (.list []))) &&
  (match getNonNull e "sleepSecs" with
   | some v => numOk v
   | none => true) &&
  (match getNonNull e "sleepQuality" with
   | some v => hashableOk v
   | none => true)

/-- `format_intervals` raises only when a present truthy `icu_intervals` or
`icu_groups` is not a sequence of mappings. -/
def intervalsShapeOk (d : List (String × Value)) : Bool :=
  (match lookupV d "icu_intervals" with
   | some v => !truthy v ||
      (match v with
       | .list xs => xs.all isDictV
       | _ => false)
   | none => true) &&
  (match lookupV d "icu_groups" with
   | some v => !truthy v ||
      (match v with
       | .list xs => xs.all isDictV
       | _ => false)
   | none => true)

/-- Whether an embedded computation returned normally. -/
def exceptOk {α : Type} : Except PyErr α → Bool
  | .ok _ => true
  | .error _ => false

/-! ## Supporting lemmas -/

/-- The ASCII ranges of `islower` and `isupper` are disjoint. -/
theorem isLower_isUpper_false {c : Char} (h : c.isLower = true) : c.isUpper = false := by
  unfold Char.isLower at h
  unfold Char.isUpper
  rw [Bool.and_eq_true, decide_eq_true_eq, decide_eq_true_eq] at h
  rw [Bool.and_eq_false_iff]
  right
  rw [decide_eq_false_iff_not]
  intro hle
  have h1 : 97 ≤ c.val.toNat := UInt32.le_toNat_of_le (by decide) h.1
  have h2 : c.val.toNat ≤ 90 := UInt32.toNat_le_of_le (by decide) hle
  omega

/-- `isCamelcase` on a string whose character list is known. -/
theorem isCamelcase_cons {name : String} {c : Char} {cs : List Char}
    (h : name.toList = c :: cs) :
    isCamelcase name = (c.isLower && (c :: cs).any Char.isUpper) := by
  unfold isCamelcase
  rw [h]

/-- `_detect_custom_fields` is the filter keeping unknown camelCase keys. -/
theorem detectCustomFields_eq_filter (p : List (String × Value)) (K : List String) :
    detectCustomFields p K = p.filter (fun kv => !K.contains kv.1 && isCamelcase kv.1) := by
  induction p with
  | nil => rfl
  | cons kv rest ih =>
    obtain ⟨k, v⟩ := kv
    by_cases hk : k ∈ K <;> by_cases hc : isCamelcase k <;>
      simp [detectCustomFields, List.filter_cons, hk, hc, ih]

/-! ## Claim C2 -/

/-- C2: for every payload `p` and known-field set `K`,
`detect_custom_fields(p, K)` holds exactly the pairs of `p` whose key is
absent from `K` and is camelCase, with original values preserved (stated
both as a filter identity on items/keys and as a membership
characterization); it is empty when every camelCase key of `p` is in `K`;
and `is_camel_case(name)` is true iff `name` is non-empty, its first
character is a lowercase letter, and at least one later character is
uppercase. -/
theorem C2_detect_custom_fields (p : List (String × Value)) (K : List String) :
    (detectCustomFields p K = p.filter (fun kv => !K.contains kv.1 && isCamelcase kv.1))
    ∧ ((detectCustomFields p K).map Prod.fst
        = (p.map Prod.fst).filter (fun k => !K.contains k && isCamelcase k))
    ∧ (∀ k v, (k, v) ∈ detectCustomFields p K ↔
        ((k, v) ∈ p ∧ ¬ k ∈ K ∧ isCamelcase k = true))
    ∧ ((∀ k ∈ p.map Prod.fst, isCamelcase k = true → k ∈ K) → detectCustomFields p K = [])
    ∧ (∀ name : String, isCamelcase name = true ↔
        ∃ c cs, name.toList = c :: cs ∧ c.isLower = true ∧ cs.any Char.isUpper = true) := by
  refine ⟨detectCustomFields_eq_filter p K, ?_, ?_, ?_, ?_⟩
  · rw [detectCustomFields_eq_filter, List.filter_map]
    rfl
  · intro k v
    rw [detectCustomFields_eq_filter, List.mem_filter]
    simp
  · intro h
    rw [detectCustomFields_eq_filter, List.filter_eq_nil_iff]
    intro kv hkv
    by_cases hc : isCamelcase kv.1
    · have hmem := h kv.1 (List.mem_map_of_mem Prod.fst hkv) hc
      simp [hmem]
    · simp [hc]
  · intro name
    constructor
    · intro h
      cases hd : name.toList with
      | nil =>
        unfold isCamelcase at h
        rw [hd] at h
        exact absurd h (by simp)
      | cons c cs =>
        rw [isCamelcase_cons hd, Bool.and_eq_true] at h
        obtain ⟨hl, ha⟩ := h
        rw [List.any_cons, Bool.or_eq_true] at ha
        refine ⟨c, cs, rfl, hl, ?_⟩
        rcases ha with hc | hcs
        · rw [isLower_isUpper_false hl] at hc
          exact absurd hc (by simp)
        · exact hcs
    · rintro ⟨c2, cs2, heq, hl, ha⟩
      rw [isCamelcase_cons heq]
      simp [hl, ha]

/-- Witness for C2: concrete instances, including discharging the
all-known hypothesis of the emptiness conjunct. -/
theorem C2_detect_custom_fields_witness :
    detectCustomFields [("customField", Value.int 1), ("custom_field", Value.int 2)] ["id"]
      = [("customField", Value.int 1)]
    ∧ detectCustomFields [("customField", Value.int 1), ("name", Value.int 2)] ["customField"] = [] := by
  constructor
  · rw [(C2_detect_custom_fields [("customField", Value.int 1), ("custom_field", Value.int 2)] ["id"]).1]
    rfl
  · exact (C2_detect_custom_fields [("customField", Value.int 1), ("name", Value.int 2)]
      ["customField"]).2.2.2.1 (by decide)

/-! ## Claim C3 -/

/-- The sort underlying `_format_custom_fields` permutes its input. -/
theorem sortByKey_perm (m : List (String × Value)) : (sortByKey m).Perm m :=
  List.perm_insertionSort keyLE m

/-- The sort underlying `_format_custom_fields` sorts by key. -/
theorem sortByKey_sorted (m : List (String × Value)) : (sortByKey m).Sorted keyLE :=
  List.sorted_insertionSort keyLE m

/-- The keys of the sorted items are ascending. -/
theorem sortByKey_sorted_keys (m : List (String × Value)) :
    ((sortByKey m).map Prod.fst).Sorted (· ≤ ·) := by
  rw [List.Sorted, List.pairwise_map]
  exact sortByKey_sorted m

/-- Two key-sorted association lists with duplicate-free keys that are
permutations of each other are equal: the sorted rendering is independent
of insertion order. -/
theorem sorted_nodup_keys_eq :
    ∀ (l1 l2 : List (String × Value)), l1.Perm l2 →
      l1.Sorted keyLE → l2.Sorted keyLE → (l1.map Prod.fst).Nodup → l1 = l2
  | [], _, hp, _, _, _ => hp.nil_eq
  | a :: t1, l2, hp, hs1, hs2, hn => by
    cases l2 with
    | nil => exact absurd hp.symm.nil_eq (by simp)
    | cons b t2 =>
      rw [List.map_cons, List.nodup_cons] at hn
      have hab : a = b := by
        have hamem : a ∈ b :: t2 := hp.subset (List.mem_cons_self a t1)
        rcases List.mem_cons.mp hamem with h | h
        · exact h
        · have hbmem : b ∈ a :: t1 := hp.symm.subset (List.mem_cons_self b t2)
          rcases List.mem_cons.mp hbmem with h2 | h2
          · exact h2.symm
          · have hle1 : keyLE a b := List.rel_of_sorted_cons hs1 b h2
            have hle2 : keyLE b a := List.rel_of_sorted_cons hs2 a h
            have hkeq : a.1 = b.1 := le_antisymm hle1 hle2
            have hmem : a.1 ∈ t1.map Prod.fst := hkeq ▸ List.mem_map_of_mem Prod.fst h2
            exact absurd hmem hn.1
      subst hab
      have htl := sorted_nodup_keys_eq t1 t2 hp.cons_inv hs1.of_cons hs2.of_cons hn.2
      rw [htl]

/-- `_format_custom_fields` renders exactly the key-sorted items, one line
each (the empty guard of the source is redundant for the empty mapping). -/
theorem formatCustomFields_eq_map (m : List (String × Value)) :
    formatCustomFields m = (sortByKey m).map
      (fun kv => "- " ++ formatKeyName kv.1 ++ ": " ++ formatFieldValue kv.2) := by
  unfold formatCustomFields
  by_cases hm : m.isEmpty
  · rw [if_pos hm]
    rw [List.isEmpty_iff] at hm
    subst hm
    rfl
  · rw [if_neg hm]

/-- C3: `format_custom_fields` of an empty mapping is the empty sequence;
for any mapping it emits one line per entry, rendered from the items sorted
by ascending key, so its output is invariant under re-ordering of a
duplicate-free mapping; the concrete zebra/alpha/beta example renders in
Alpha, Beta, Zebra order; and when the detected custom-field mapping is
empty, the activity and wellness formatters append no "Custom Fields:"
section — in particular the activity summary of
`{"name": "Morning Ride", "id": 1}` does not contain that substring.  (The
remaining formatters never emit a custom-fields section at all.) -/
theorem C3_custom_fields_sorting :
    (formatCustomFields [] = [])
    ∧ (∀ m : List (String × Value),
        (formatCustomFields m).length = m.length
        ∧ ((sortByKey m).map Prod.fst).Sorted (· ≤ ·)
        ∧ (sortByKey m).Perm m
        ∧ formatCustomFields m = (sortByKey m).map
            (fun kv => "- " ++ formatKeyName kv.1 ++ ": " ++ formatFieldValue kv.2))
    ∧ (∀ m1 m2 : List (String × Value), m1.Perm m2 → (m1.map Prod.fst).Nodup →
        formatCustomFields m1 = formatCustomFields m2)
    ∧ (formatCustomFields
        [("zebraField", Value.str "z"), ("alphaField", Value.str "a"), ("betaField", Value.str "b")]
        = ["- Alpha Field: a", "- Beta Field: b", "- Zebra Field: z"])
    ∧ (∀ (parse : IsoParser) (a : List (String × Value)),
        detectCustomFields a knownActivityFields = [] →
        formatActivitySummary parse a = activitySummaryBase parse a)
    ∧ (∀ (entries : List (String × Value)) (l10 : List String),
        detectCustomFields entries knownWellnessFields = [] →
        wellnessBaseLines entries = .ok l10 →
        formatWellnessEntry entries = .ok (joinSep "\n" l10))
    ∧ (∀ parse : IsoParser,
        strContains
          (formatActivitySummary parse [("name", Value.str "Morning Ride"), ("id", Value.int 1)])
          "Custom Fields:" = false) := by
  refine ⟨rfl, ?_, ?_, by decide, ?_, ?_, ?_⟩
  · intro m
    refine ⟨?_, sortByKey_sorted_keys m, sortByKey_perm m, formatCustomFields_eq_map m⟩
    rw [formatCustomFields_eq_map, List.length_map]
    exact (sortByKey_perm m).length_eq
  · intro m1 m2 hperm hnodup
    have hkey : sortByKey m1 = sortByKey m2 :=
      sorted_nodup_keys_eq _ _
        (((sortByKey_perm m1).trans hperm).trans (sortByKey_perm m2).symm)
        (sortByKey_sorted m1) (sortByKey_sorted m2)
        (((sortByKey_perm m1).map Prod.fst).nodup_iff.mpr hnodup)
    have hemp : m1.isEmpty = m2.isEmpty := by
      cases m1 <;> cases m2 <;>
        first
          | rfl
          | exact absurd hperm.nil_eq (by simp)
          | exact absurd hperm.symm.nil_eq (by simp)
    unfold formatCustomFields
    rw [hkey, hemp]
  · intro parse a hdetect
    unfold formatActivitySummary
    rw [hdetect]
    rfl
  · intro entries l10 hdetect hbase
    unfold formatWellnessEntry
    rw [hbase, hdetect]
    rfl
  · intro parse
    rfl

/-- Witness for C3: the order-invariance and section-omission conjuncts
applied at concrete inputs. -/
theorem C3_custom_fields_sorting_witness :
    formatCustomFields [("betaField", Value.str "b"), ("alphaField", Value.str "a")]
      = formatCustomFields [("alphaField", Value.str "a"), ("betaField", Value.str "b")]
    ∧ formatActivitySummary (fun _ => none) [("name", Value.str "Morning Ride"), ("id", Value.int 1)]
      = activitySummaryBase (fun _ => none) [("name", Value.str "Morning Ride"), ("id", Value.int 1)]
    ∧ formatWellnessEntry [("id", Value.str "2024-01-01")]
      = .ok (joinSep "\n" ["Wellness Data:", "Date: 2024-01-01", ""]) := by
  refine ⟨?_, ?_, ?_⟩
  · exact C3_custom_fields_sorting.2.2.1 _ _
      (List.Perm.swap ("alphaField", Value.str "a") ("betaField", Value.str "b") [])
      (by decide)
  · exact C3_custom_fields_sorting.2.2.2.2.1 (fun _ => none) _ rfl
  · exact C3_custom_fields_sorting.2.2.2.2.2.1 _ _ rfl rfl

/-! ## Claim C4 -/

/-- C4: every line of `format_custom_fields` is `"- " ++ K ++ ": " ++ V`
for some entry of the mapping; the key transform inserts a space before an
uppercase letter following a lowercase letter and capitalizes the first
character (`"fooBar"` renders `"Foo Bar"`), the empty key renders as
`"Unknown"` (so `{"": "value"}` yields exactly the one line
`"- Unknown: value"`, containing both `"Unknown"` and `"value"`), a
single-character key renders as that character capitalized; values render
as `"N/A"` for null, `"True"`/`"False"` for booleans, the decimal form for
integers, and the string itself for strings.  Totality (no input raises)
holds by construction: the embedding of `_format_custom_fields` is a pure
function with no error channel. -/
theorem C4_custom_field_line_shape :
    (∀ m line, line ∈ formatCustomFields m →
      ∃ k v, (k, v) ∈ m ∧ line = "- " ++ formatKeyName k ++ ": " ++ formatFieldValue v)
    ∧ (∀ m, formatCustomFields m = (sortByKey m).map
        (fun kv => "- " ++ formatKeyName kv.1 ++ ": " ++ formatFieldValue kv.2))
    ∧ formatKeyName "fooBar" = "Foo Bar"
    ∧ formatKeyName "anotherCustomMetric" = "Another Custom Metric"
    ∧ formatKeyName "" = "Unknown"
    ∧ (∀ c : Char, formatKeyName (String.mk [c]) = String.mk [c.toUpper])
    ∧ formatFieldValue Value.null = "N/A"
    ∧ (∀ b, formatFieldValue (Value.bool b) = cond b "True" "False")
    ∧ (∀ n : Int, formatFieldValue (Value.int n) = toString n)
    ∧ (∀ s, formatFieldValue (Value.str s) = s)
    ∧ formatCustomFields [("", Value.str "value")] = ["- Unknown: value"]
    ∧ strContains "- Unknown: value" "Unknown" = true
    ∧ strContains "- Unknown: value" "value" = true := by
  refine ⟨?_, formatCustomFields_eq_map, rfl, rfl, rfl, fun c => rfl, rfl, fun b => rfl,
    fun n => rfl, fun s => rfl, rfl, rfl, rfl⟩
  intro m line hline
  rw [formatCustomFields_eq_map] at hline
  obtain ⟨kv, hkv, hrender⟩ := List.mem_map.mp hline
  exact ⟨kv.1, kv.2, (sortByKey_perm m).subset hkv, hrender.symm⟩

/-- Witness for C4: the existential line-shape conjunct discharged at a
concrete mapping. -/
theorem C4_custom_field_line_shape_witness :
    ∃ k v, (k, v) ∈ [("fooBar", Value.int 3)]
      ∧ "- Foo Bar: 3" = "- " ++ formatKeyName k ++ ": " ++ formatFieldValue v :=
  C4_custom_field_line_shape.1 [("fooBar", Value.int 3)] "- Foo Bar: 3" (by decide)

/-! ## Claim C5 -/

/-- Replacing `"Z"` in a Z-free character list is the identity. -/
theorem foldr_zexp_no_z (l : List Char) (acc : List Char) (h : ∀ c ∈ l, c ≠ 'Z') :
    l.foldr
      (fun c acc2 => if c = 'Z' then '+' :: '0' :: '0' :: ':' :: '0' :: '0' :: acc2 else c :: acc2)
      acc = l ++ acc := by
  induction l with
  | nil => rfl
  | cons c cs ih =>
    rw [List.foldr_cons, ih (fun x hx => h x (List.mem_cons_of_mem c hx)),
      if_neg (h c (List.mem_cons_self c cs))]
    rfl

/-- C5: the activity start-time helper reformats a start-time value only
when it is a string strictly longer than 10 characters (shorter strings and
non-strings pass through unchanged); the parser receives the value with
every `"Z"` expanded to `"+00:00"` — in particular a trailing `"Z"` becomes
the UTC offset `"+00:00"`; a failed parse returns the raw string verbatim
and a successful parse returns the `strftime` rendering. -/
theorem C5_start_time_rendering (parse : IsoParser) (a : List (String × Value)) :
    (∀ s : String, pyGet a "startTime" (pyGet a "start_date" (.str "Unknown")) = .str s →
      (s.length ≤ 10 → formatActivityStartTime parse a = .str s)
      ∧ (10 < s.length → parse (zToUtcOffset s) = none →
          formatActivityStartTime parse a = .str s)
      ∧ (10 < s.length → ∀ dt, parse (zToUtcOffset s) = some dt →
          formatActivityStartTime parse a = .str (strftimeYmdHMS dt)))
    ∧ (∀ v, pyGet a "startTime" (pyGet a "start_date" (.str "Unknown")) = v →
        (∀ s, v ≠ Value.str s) → formatActivityStartTime parse a = v)
    ∧ (∀ t : String, ¬ 'Z' ∈ t.toList → zToUtcOffset (t ++ "Z") = t ++ "+00:00") := by
  refine ⟨?_, ?_, ?_⟩
  · intro s hs
    unfold formatActivityStartTime
    rw [hs]
    dsimp only
    refine ⟨?_, ?_, ?_⟩
    · intro hlen
      rw [if_neg (show ¬ s.length > 10 by omega)]
    · intro hlen hparse
      rw [if_pos (show s.length > 10 by omega), hparse]
    · intro hlen dt hparse
      rw [if_pos (show s.length > 10 by omega), hparse]
  · intro v hv hvs
    unfold formatActivityStartTime
    rw [hv]
    cases v with
    | str s => exact absurd rfl (hvs s)
    | null => rfl
    | bool b => rfl
    | int n => rfl
    | list xs => rfl
    | dict kvs => rfl
  · intro t hz
    unfold zToUtcOffset
    have h1 : (t ++ "Z").toList = t.toList ++ ['Z'] := by
      show (t ++ "Z").data = t.data ++ ['Z']
      rw [String.data_append]
    rw [h1, List.foldr_append,
      foldr_zexp_no_z t.toList _ (fun c hc hcz => hz (hcz ▸ hc))]
    show String.mk (t.data ++ ('+' :: '0' :: '0' :: ':' :: '0' :: '0' :: [])) = t ++ "+00:00"
    rfl

/-- Witness for C5: a length-10 date passes through, an unparseable long
string is preserved verbatim, a parseable Z-terminated timestamp is
reformatted, the Z expansion is literal, and a non-string passes through. -/
theorem C5_start_time_rendering_witness :
    formatActivityStartTime (fun _ => none)
      [("startTime", Value.str "2024-01-01")] = Value.str "2024-01-01"
    ∧ formatActivityStartTime (fun _ => none)
      [("startTime", Value.str "not-a-timestamp!")] = Value.str "not-a-timestamp!"
    ∧ formatActivityStartTime
        (fun s => if s = "2024-01-01T08:00:00+00:00" then some ⟨2024, 1, 1, 8, 0, 0⟩ else none)
        [("startTime", Value.str "2024-01-01T08:00:00Z")] = Value.str "2024-01-01 08:00:00"
    ∧ zToUtcOffset "2024-01-01T08:00:00Z" = "2024-01-01T08:00:00+00:00"
    ∧ formatActivityStartTime (fun _ => none) [("startTime", Value.int 5)] = Value.int 5 := by
  refine ⟨?_, ?_, ?_, ?_, ?_⟩
  · exact ((C5_start_time_rendering (fun _ => none)
      [("startTime", Value.str "2024-01-01")]).1 "2024-01-01" rfl).1 (by decide)
  · exact ((C5_start_time_rendering (fun _ => none)
      [("startTime", Value.str "not-a-timestamp!")]).1 "not-a-timestamp!" rfl).2.1
      (by decide) rfl
  · exact ((C5_start_time_rendering
      (fun s => if s = "2024-01-01T08:00:00+00:00" then some ⟨2024, 1, 1, 8, 0, 0⟩ else none)
      [("startTime", Value.str "2024-01-01T08:00:00Z")]).1 "2024-01-01T08:00:00Z" rfl).2.2
      (by decide) ⟨2024, 1, 1, 8, 0, 0⟩ rfl
  · exact (C5_start_time_rendering (fun _ => none) []).2.2 "2024-01-01T08:00:00" (by decide)
  · exact (C5_start_time_rendering (fun _ => none)
      [("startTime", Value.int 5)]).2.1 (Value.int 5) rfl
      (fun s h => Value.noConfusion h)

/-! ## Claim C6 -/

/-- Counterexample to C6 as stated: the boolean quality value `True` is not
one of the codes 1, 2, 3, 4, yet it does not render literally with no label
substitution — Python's `dict.get` compares `True == 1`, so the label
`"Great"` is substituted and the line reads `"  Sleep Quality: True (Great)"`. -/
theorem C6_sleep_quality_counterexample :
    formatSleepRecovery [("sleepQuality", Value.bool true)]
      = .ok ["  Sleep Quality: True (Great)"] := rfl

/-- The sleep-recovery section for a payload holding only a (non-null)
sleep-quality value: one line built from the raw value and the looked-up
label text. -/
theorem formatSleepRecovery_single_quality (qv : Value)
    (hqv : getNonNull [("sleepQuality", qv)] "sleepQuality" = some qv) :
    formatSleepRecovery [("sleepQuality", qv)]
      = (do
          let qt ← sleepQualityText qv
          pure ["  Sleep Quality: " ++ pyStr qv ++ " (" ++ qt ++ ")"]) := by
  unfold formatSleepRecovery
  rw [hqv]
  dsimp only
  cases hq : sleepQualityText qv with
  | ok qt => rfl
  | error e => rfl

/-- C6 amended: quality codes 1, 2, 3, 4 render the labels `"Great"`,
`"Good"`, `"Average"`, `"Poor"`; every other non-null integer or string
quality value renders literally as its raw textual form with no label
substitution (code 99 renders as `"99"`); booleans follow Python numeric
equality (`True` hits the code-1 entry and renders `"(Great)"`, `False`
misses the table and renders literally); unhashable sequence/mapping values
raise `TypeError`; and the rendered line is
`"  Sleep Quality: <raw> (<text>)"`. -/
theorem C6_sleep_quality_amended :
    sleepQualityText (Value.int 1) = .ok "Great"
    ∧ sleepQualityText (Value.int 2) = .ok "Good"
    ∧ sleepQualityText (Value.int 3) = .ok "Average"
    ∧ sleepQualityText (Value.int 4) = .ok "Poor"
    ∧ (∀ n : Int, n ≠ 1 → n ≠ 2 → n ≠ 3 → n ≠ 4 →
        sleepQualityText (Value.int n) = .ok (toString n))
    ∧ (∀ s : String, sleepQualityText (Value.str s) = .ok s)
    ∧ sleepQualityText (Value.bool true) = .ok "Great"
    ∧ sleepQualityText (Value.bool false) = .ok "False"
    ∧ (∀ xs, sleepQualityText (Value.list xs) = .error (.typeError "unhashable type: \x27list\x27"))
    ∧ (∀ kvs, sleepQualityText (Value.dict kvs) = .error (.typeError "unhashable type: \x27dict\x27"))
    ∧ (∀ qv, qv ≠ Value.null →
        formatSleepRecovery [("sleepQuality", qv)]
          = (do
              let qt ← sleepQualityText qv
              pure ["  Sleep Quality: " ++ pyStr qv ++ " (" ++ qt ++ ")"]))
    ∧ formatSleepRecovery [("sleepQuality", Value.int 2)] = .ok ["  Sleep Quality: 2 (Good)"]
    ∧ formatSleepRecovery [("sleepQuality", Value.int 99)] = .ok ["  Sleep Quality: 99 (99)"] := by
  refine ⟨rfl, rfl, rfl, rfl, ?_, fun s => rfl, rfl, rfl, fun xs => rfl, fun kvs => rfl,
    ?_, rfl, rfl⟩
  · intro n h1 h2 h3 h4
    unfold sleepQualityText
    split
    all_goals first
      | rfl
      | (rename_i heq; injection heq with hn; omega)
      | (rename_i heq; exact absurd heq (by simp))
  · intro qv hqv
    cases qv with
    | null => exact absurd rfl hqv
    | bool b => exact formatSleepRecovery_single_quality _ rfl
    | int n => exact formatSleepRecovery_single_quality _ rfl
    | str s => exact formatSleepRecovery_single_quality _ rfl
    | list xs => exact formatSleepRecovery_single_quality _ rfl
    | dict kvs => exact formatSleepRecovery_single_quality _ rfl

/-- Witness for C6: the generic-value conjuncts instantiated at code 7 and
at a string-valued quality. -/
theorem C6_sleep_quality_amended_witness :
    sleepQualityText (Value.int 7) = .ok "7"
    ∧ formatSleepRecovery [("sleepQuality", Value.str "fine")]
      = (do
          let qt ← sleepQualityText (Value.str "fine")
          pure ["  Sleep Quality: fine (fine)"]) := by
  constructor
  · exact C6_sleep_quality_amended.2.2.2.2.1 7 (by decide) (by decide) (by decide) (by decide)
  · exact C6_sleep_quality_amended.2.2.2.2.2.2.2.2.2.2.1 (Value.str "fine")
      (fun h => Value.noConfusion h)

/-! ## Claim C10 -/

/-- Looking up the removed key in a key-filtered payload yields nothing. -/
theorem lookupV_filter_self (l : List (String × Value)) (k0 : String) :
    lookupV (l.filter (fun kv => kv.1 != k0)) k0 = none := by
  induction l with
  | nil => rfl
  | cons kv rest ih =>
    obtain ⟨k2, v⟩ := kv
    by_cases h2 : k2 = k0
    · simp [List.filter_cons, h2, ih]
    · simp [List.filter_cons, h2, lookupV, ih]

/-- Looking up any other key is unaffected by removing `k0`. -/
theorem lookupV_filter_ne (l : List (String × Value)) (k0 k : String) (hk : k ≠ k0) :
    lookupV (l.filter (fun kv => kv.1 != k0)) k = lookupV l k := by
  induction l with
  | nil => rfl
  | cons kv rest ih =>
    obtain ⟨k2, v⟩ := kv
    by_cases h2 : k2 = k0
    · subst h2
      have hne : k2 ≠ k := fun h => hk h.symm
      simp [List.filter_cons, lookupV, hne, ih]
    · simp [List.filter_cons, h2, lookupV, ih]

/-- `d.get(k, dflt)` is unaffected by removing `k0 ≠ k`. -/
theorem pyGet_filter_ne (l : List (String × Value)) (k0 k : String) (d : Value) (hk : k ≠ k0) :
    pyGet (l.filter (fun kv => kv.1 != k0)) k d = pyGet l k d := by
  unfold pyGet
  rw [lookupV_filter_ne l k0 k hk]

/-- `d.get(k)` is unaffected by removing `k0 ≠ k`. -/
theorem pyGetN_filter_ne (l : List (String × Value)) (k0 k : String) (hk : k ≠ k0) :
    pyGetN (l.filter (fun kv => kv.1 != k0)) k = pyGetN l k := by
  unfold pyGetN
  exact pyGet_filter_ne l k0 k .null hk

/-- The non-null guard is unaffected by removing `k0 ≠ k`. -/
theorem getNonNull_filter_ne (l : List (String × Value)) (k0 k : String) (hk : k ≠ k0) :
    getNonNull (l.filter (fun kv => kv.1 != k0)) k = getNonNull l k := by
  unfold getNonNull
  rw [lookupV_filter_ne l k0 k hk]

/-- Custom-field detection ignores entries whose key is known, so removing
a known key leaves it unchanged. -/
theorem detectCustomFields_filter_known (l : List (String × Value)) (K : List String)
    (k0 : String) (hk0 : K.contains k0 = true) :
    detectCustomFields (l.filter (fun kv => kv.1 != k0)) K = detectCustomFields l K := by
  induction l with
  | nil => rfl
  | cons kv rest ih =>
    obtain ⟨k2, v⟩ := kv
    by_cases h2 : k2 = k0
    · subst h2
      have hmem : k2 ∈ K := by simpa using hk0
      simp [List.filter_cons, detectCustomFields, hmem, ih]
    · by_cases hknown : k2 ∈ K <;>
        simp [List.filter_cons, h2, detectCustomFields, hknown, ih]

/-- Training metrics ignore the `date` field. -/
theorem formatTrainingMetrics_filter (l : List (String × Value)) :
    formatTrainingMetrics (l.filter (fun kv => kv.1 != "date")) = formatTrainingMetrics l := by
  unfold formatTrainingMetrics
  simp only [List.filterMap_cons, List.filterMap_nil]
  rw [getNonNull_filter_ne l "date" "ctl" (by decide),
    getNonNull_filter_ne l "date" "atl" (by decide),
    getNonNull_filter_ne l "date" "rampRate" (by decide),
    getNonNull_filter_ne l "date" "ctlLoad" (by decide),
    getNonNull_filter_ne l "date" "atlLoad" (by decide)]

/-- Sport info ignores the `date` field. -/
theorem formatSportInfo_filter (l : List (String × Value)) :
    formatSportInfo (l.filter (fun kv => kv.1 != "date")) = formatSportInfo l := by
  unfold formatSportInfo
  rw [pyGetN_filter_ne l "date" "sportInfo" (by decide),
    pyGet_filter_ne l "date" "sportInfo" (.list []) (by decide)]

/-- Vital signs ignore the `date` field. -/
theorem formatVitalSigns_filter (l : List (String × Value)) :
    formatVitalSigns (l.filter (fun kv => kv.1 != "date")) = formatVitalSigns l := by
  unfold formatVitalSigns
  simp only [List.filterMap_cons, List.filterMap_nil]
  simp [getNonNull_filter_ne]

/-- Sleep & recovery ignores the `date` field. -/
theorem formatSleepRecovery_filter (l : List (String × Value)) :
    formatSleepRecovery (l.filter (fun kv => kv.1 != "date")) = formatSleepRecovery l := by
  unfold formatSleepRecovery
  rw [getNonNull_filter_ne l "date" "sleepSecs" (by decide),
    getNonNull_filter_ne l "date" "sleepHours" (by decide),
    getNonNull_filter_ne l "date" "sleepQuality" (by decide),
    getNonNull_filter_ne l "date" "sleepScore" (by decide),
    getNonNull_filter_ne l "date" "readiness" (by decide)]

/-- Menstrual tracking ignores the `date` field. -/
theorem formatMenstrualTracking_filter (l : List (String × Value)) :
    formatMenstrualTracking (l.filter (fun kv => kv.1 != "date")) = formatMenstrualTracking l := by
  unfold formatMenstrualTracking
  rw [getNonNull_filter_ne l "date" "menstrualPhase" (by decide),
    getNonNull_filter_ne l "date" "menstrualPhasePredicted" (by decide)]

/-- Subjective feelings ignore the `date` field. -/
theorem formatSubjectiveFeelings_filter (l : List (String × Value)) :
    formatSubjectiveFeelings (l.filter (fun kv => kv.1 != "date")) = formatSubjectiveFeelings l := by
  unfold formatSubjectiveFeelings
  simp only [List.filterMap_cons, List.filterMap_nil]
  rw [getNonNull_filter_ne l "date" "soreness" (by decide),
    getNonNull_filter_ne l "date" "fatigue" (by decide),
    getNonNull_filter_ne l "date" "stress" (by decide),
    getNonNull_filter_ne l "date" "mood" (by decide),
    getNonNull_filter_ne l "date" "motivation" (by decide),
    getNonNull_filter_ne l "date" "injury" (by decide)]

/-- Nutrition & hydration ignores the `date` field. -/
theorem formatNutritionHydration_filter (l : List (String × Value)) :
    formatNutritionHydration (l.filter (fun kv => kv.1 != "date")) = formatNutritionHydration l := by
  unfold formatNutritionHydration
  simp only [List.filterMap_cons, List.filterMap_nil]
  rw [getNonNull_filter_ne l "date" "kcalConsumed" (by decide),
    getNonNull_filter_ne l "date" "hydrationVolume" (by decide),
    getNonNull_filter_ne l "date" "hydration" (by decide)]

/-- The pre-custom-fields wellness lines ignore the `date` field. -/
theorem wellnessBaseLines_filter (l : List (String × Value)) :
    wellnessBaseLines (l.filter (fun kv => kv.1 != "date")) = wellnessBaseLines l := by
  unfold wellnessBaseLines
  rw [formatTrainingMetrics_filter, formatSportInfo_filter, formatVitalSigns_filter,
    formatSleepRecovery_filter, formatMenstrualTracking_filter,
    formatSubjectiveFeelings_filter, formatNutritionHydration_filter,
    pyGet_filter_ne l "date" "id" (.str "N/A") (by decide),
    getNonNull_filter_ne l "date" "steps" (by decide),
    pyGetN_filter_ne l "date" "comments" (by decide),
    lookupV_filter_ne l "date" "locked" (by decide),
    pyGetN_filter_ne l "date" "locked" (by decide)]

/-- The whole wellness report ignores the `date` field. -/
theorem formatWellnessEntry_filter (l : List (String × Value)) :
    formatWellnessEntry (l.filter (fun kv => kv.1 != "date")) = formatWellnessEntry l := by
  unfold formatWellnessEntry
  rw [wellnessBaseLines_filter,
    detectCustomFields_filter_known l knownWellnessFields "date" (by decide)]

/-- `_add_wellness_section` appends a (possibly empty) section tail. -/
theorem addWellnessSection_eq_append (l s : List String) (t : String) :
    addWellnessSection l s t = l ++ (if s.isEmpty then [] else [t] ++ s ++ [""]) := by
  unfold addWellnessSection
  by_cases h : s.isEmpty <;> simp [h]

/-- The wellness lines always start with the header, the Date line showing
the `id` value, and a blank line. -/
theorem wellnessBaseLines_head (entries : List (String × Value)) (l10 : List String)
    (h : wellnessBaseLines entries = .ok l10) :
    ∃ rest, l10 = ["Wellness Data:", "Date: " ++ pyStr (pyGet entries "id" (.str "N/A")), ""] ++ rest := by
  unfold wellnessBaseLines at h
  cases hsi : formatSportInfo entries with
  | error e =>
    rw [hsi] at h
    exact absurd h (by simp [Bind.bind, Except.bind])
  | ok si =>
    rw [hsi] at h
    cases hsr : formatSleepRecovery entries with
    | error e =>
      rw [hsr] at h
      exact absurd h (by simp [Bind.bind, Except.bind])
    | ok sr =>
      rw [hsr] at h
      simp only [Bind.bind, Except.bind, pure, Except.pure, Except.ok.injEq] at h
      subst h
      rcases hstep : getNonNull entries "steps" with _ | v <;>
        by_cases hc : truthy (pyGetN entries "comments") <;>
        by_cases hl : (lookupV entries "locked").isSome <;>
        simp only [hstep, hc, hl, if_true, if_false, ite_true, ite_false,
          addWellnessSection_eq_append, List.append_assoc, List.cons_append,
          List.nil_append] <;>
        exact ⟨_, rfl⟩

/-- Unfolding `joinSep` once on a two-or-more-element list. -/
theorem joinSep_cons_cons (sep a b : String) (l : List String) :
    joinSep sep (a :: b :: l) = a ++ sep ++ joinSep sep (b :: l) := rfl

/-- Joining the wellness lines exposes the header and Date line as a
string prefix. -/
theorem joinSep_wellness_head (p : String) (tail : List String) :
    joinSep "\n" ("Wellness Data:" :: ("Date: " ++ p) :: "" :: tail)
      = "Wellness Data:\nDate: " ++ p ++ "\n" ++ joinSep "\n" ("" :: tail) := by
  rw [joinSep_cons_cons, joinSep_cons_cons]
  apply String.ext
  simp only [String.data_append, List.append_assoc]
  rfl

/-- C10: the wellness `Date:` line displays the payload's `id` value (or
`"N/A"` when absent), and the `date` field is never rendered: the report
equals the report of the payload with every `date` entry removed. -/
theorem C10_wellness_date_line (entries : List (String × Value)) :
    formatWellnessEntry (entries.filter (fun kv => kv.1 != "date")) = formatWellnessEntry entries
    ∧ (∀ s, formatWellnessEntry entries = .ok s →
        ∃ rest, s = "Wellness Data:\nDate: " ++ pyStr (pyGet entries "id" (.str "N/A"))
          ++ "\n" ++ rest) := by
  constructor
  · exact formatWellnessEntry_filter entries
  · intro s hs
    unfold formatWellnessEntry at hs
    cases hbase : wellnessBaseLines entries with
    | error e =>
      rw [hbase] at hs
      exact absurd hs (by simp [Bind.bind, Except.bind])
    | ok l10 =>
      rw [hbase] at hs
      simp only [Bind.bind, Except.bind, pure, Except.pure, Except.ok.injEq] at hs
      obtain ⟨rest0, hrest⟩ := wellnessBaseLines_head entries l10 hbase
      subst hrest
      set cf := formatCustomFields (detectCustomFields entries knownWellnessFields) with hcf
      by_cases hemp : cf.isEmpty
      · rw [if_pos hemp] at hs
        refine ⟨joinSep "\n" ("" :: rest0), ?_⟩
        rw [← hs]
        exact joinSep_wellness_head (pyStr (pyGet entries "id" (.str "N/A"))) rest0
      · rw [if_neg hemp] at hs
        refine ⟨joinSep "\n" ("" :: (rest0 ++ ["", "Custom Fields:"] ++ cf)), ?_⟩
        rw [← hs]
        have hshape :
            (["Wellness Data:", "Date: " ++ pyStr (pyGet entries "id" (.str "N/A")), ""] ++ rest0)
              ++ ["", "Custom Fields:"] ++ cf
            = "Wellness Data:" :: ("Date: " ++ pyStr (pyGet entries "id" (.str "N/A")))
              :: "" :: (rest0 ++ ["", "Custom Fields:"] ++ cf) := by
          simp
        rw [hshape]
        exact joinSep_wellness_head (pyStr (pyGet entries "id" (.str "N/A")))
          (rest0 ++ ["", "Custom Fields:"] ++ cf)

/-- Witness for C10: both conjuncts applied to a payload carrying both a
`date` and an `id`. -/
theorem C10_wellness_date_line_witness :
    formatWellnessEntry
        [("id", Value.str "2024-02-02")]
      = formatWellnessEntry [("date", Value.str "1999-09-09"), ("id", Value.str "2024-02-02")]
    ∧ ∃ rest, "Wellness Data:\nDate: 2024-02-02\n"
        = "Wellness Data:\nDate: "
          ++ pyStr (pyGet [("date", Value.str "1999-09-09"), ("id", Value.str "2024-02-02")] "id" (.str "N/A"))
          ++ "\n" ++ rest := by
  constructor
  · exact (C10_wellness_date_line
      [("date", Value.str "1999-09-09"), ("id", Value.str "2024-02-02")]).1
  · exact (C10_wellness_date_line
      [("date", Value.str "1999-09-09"), ("id", Value.str "2024-02-02")]).2
      "Wellness Data:\nDate: 2024-02-02\n" rfl

/-! ## Claim C1 -/

/-- A computation that returned normally has an `.ok` payload. -/
theorem exceptOk_exists {α : Type} {x : Except PyErr α} (h : exceptOk x = true) :
    ∃ a, x = .ok a := by
  cases x with
  | ok a => exact ⟨a, rfl⟩
  | error e => exact absurd h (by simp [exceptOk])

/-- Counterexample to C1 as stated: the per-kind formatters are not total
over all JSON payloads.  `format_event_details` on `{"calendar": null}`
executes `event["calendar"].get("name", "N/A")` on `None` and raises
`AttributeError` instead of degrading to a placeholder. -/
theorem C1_formatters_total_counterexample :
    formatEventDetails [("calendar", Value.null)]
      = .error (.attributeError "\x27NoneType\x27 object has no attribute \x27get\x27") := rfl

/-- The workout block of `format_event_details` cannot raise once the
workout value is a dict. -/
theorem eventWorkoutBlock_dict_ok (kvs : List (String × Value)) :
    exceptOk (eventWorkoutBlock (.dict kvs)) = true := by
  unfold eventWorkoutBlock
  dsimp only
  cases hli : lookupV kvs "intervals" with
  | none => rfl
  | some v => cases v <;> rfl

/-- `format_workout` returns normally on every well-shaped payload. -/
theorem formatWorkout_ok (w : List (String × Value)) (h : workoutShapeOk w = true) :
    exceptOk (formatWorkout w) = true := by
  unfold workoutShapeOk at h
  unfold formatWorkout
  cases hv : pyGet w "intervals" (.list []) <;> rw [hv] at h <;>
    first
      | rfl
      | exact absurd h (by simp [lenOk])

/-- `format_event_details` returns normally on every well-shaped payload. -/
theorem formatEventDetails_ok (e : List (String × Value)) (h : eventDetailsShapeOk e = true) :
    exceptOk (formatEventDetails e) = true := by
  unfold eventDetailsShapeOk at h
  rw [Bool.and_eq_true] at h
  obtain ⟨hw, hc⟩ := h
  unfold formatEventDetails
  cases hlc : lookupV e "calendar" with
  | some c =>
    rw [hlc] at hc
    dsimp only at hc
    cases hlw : lookupV e "workout" with
    | none =>
      dsimp only
      cases c <;> first
        | rfl
        | exact absurd hc (by simp [isDictV])
    | some w =>
      rw [hlw] at hw
      dsimp only at hw
      dsimp only
      by_cases ht : truthy w
      · rw [if_pos ht]
        rw [ht] at hw
        simp only [Bool.not_true, Bool.false_or] at hw
        cases w with
        | dict kvs =>
          obtain ⟨blk, hblk⟩ := exceptOk_exists (eventWorkoutBlock_dict_ok kvs)
          rw [hblk]
          cases c <;> first
            | rfl
            | exact absurd hc (by simp [isDictV])
        | null => exact absurd hw (by simp [isDictV])
        | bool b => exact absurd hw (by simp [isDictV])
        | int n => exact absurd hw (by simp [isDictV])
        | str s => exact absurd hw (by simp [isDictV])
        | list xs => exact absurd hw (by simp [isDictV])
      · rw [if_neg ht]
        cases c <;> first
          | rfl
          | exact absurd hc (by simp [isDictV])
  | none =>
    cases hlw : lookupV e "workout" with
    | none => rfl
    | some w =>
      rw [hlw] at hw
      dsimp only at hw
      dsimp only
      by_cases ht : truthy w
      · rw [if_pos ht]
        rw [ht] at hw
        simp only [Bool.not_true, Bool.false_or] at hw
        cases w with
        | dict kvs =>
          obtain ⟨blk, hblk⟩ := exceptOk_exists (eventWorkoutBlock_dict_ok kvs)
          rw [hblk]
          rfl
        | null => exact absurd hw (by simp [isDictV])
        | bool b => exact absurd hw (by simp [isDictV])
        | int n => exact absurd hw (by simp [isDictV])
        | str s => exact absurd hw (by simp [isDictV])
        | list xs => exact absurd hw (by simp [isDictV])
      · rw [if_neg ht]
        rfl

/-- `_format_sport_info` returns normally when a truthy `sportInfo` is
iterable. -/
theorem formatSportInfo_ok (e : List (String × Value))
    (h : (!truthy (pyGetN e "sportInfo") || iterOk (pyGet e "sportInfo" (.list []))) = true) :
    exceptOk (formatSportInfo e) = true := by
  unfold formatSportInfo
  by_cases ht : truthy (pyGetN e "sportInfo")
  · rw [if_pos ht]
    rw [ht] at h
    simp only [Bool.not_true, Bool.false_or] at h
    cases hv : pyGet e "sportInfo" (.list []) <;> rw [hv] at h <;>
      first
        | rfl
        | exact absurd h (by simp [iterOk])
  · rw [if_neg ht]
    rfl

/-- The sleep-quality lookup returns normally on every hashable value. -/
theorem sleepQualityText_ok (v : Value) (h : hashableOk v = true) :
    exceptOk (sleepQualityText v) = true := by
  cases v with
  | int n =>
    unfold sleepQualityText
    split
    all_goals first
      | rfl
      | (rename_i heq; exact absurd heq (by simp))
  | bool b => cases b <;> rfl
  | null => rfl
  | str s => rfl
  | list xs => exact absurd h (by simp [hashableOk])
  | dict kvs => exact absurd h (by simp [hashableOk])

/-- `_format_sleep_recovery` returns normally on well-shaped sleep fields. -/
theorem formatSleepRecovery_ok (e : List (String × Value))
    (h1 : (match getNonNull e "sleepSecs" with
      | some v => numOk v
      | none => true) = true)
    (h2 : (match getNonNull e "sleepQuality" with
      | some v => hashableOk v
      | none => true) = true) :
    exceptOk (formatSleepRecovery e) = true := by
  unfold formatSleepRecovery
  cases hlq : getNonNull e "sleepQuality" with
  | some qv =>
    rw [hlq] at h2
    dsimp only at h2
    obtain ⟨qt, hqt⟩ := exceptOk_exists (sleepQualityText_ok qv h2)
    cases hls : getNonNull e "sleepSecs" with
    | some v =>
      rw [hls] at h1
      dsimp only at h1
      cases v <;> first
        | (dsimp only; rw [hqt]; rfl)
        | exact absurd h1 (by simp [numOk])
    | none =>
      cases hlh : getNonNull e "sleepHours" <;> (dsimp only; rw [hqt]; rfl)
  | none =>
    cases hls : getNonNull e "sleepSecs" with
    | some v =>
      rw [hls] at h1
      dsimp only at h1
      cases v <;> first
        | rfl
        | exact absurd h1 (by simp [numOk])
    | none =>
      cases hlh : getNonNull e "sleepHours" <;> rfl

/-- The pre-custom-fields wellness lines are produced normally on every
well-shaped payload. -/
theorem wellnessBaseLines_ok (e : List (String × Value)) (h : wellnessShapeOk e = true) :
    exceptOk (wellnessBaseLines e) = true := by
  unfold wellnessShapeOk at h
  rw [Bool.and_eq_true, Bool.and_eq_true] at h
  obtain ⟨⟨hsi, hss⟩, hsq⟩ := h
  unfold wellnessBaseLines
  obtain ⟨si, hsiok⟩ := exceptOk_exists (formatSportInfo_ok e hsi)
  obtain ⟨sr, hsrok⟩ := exceptOk_exists (formatSleepRecovery_ok e hss hsq)
  rw [hsiok, hsrok]
  rfl

/-- `format_wellness_entry` returns normally on every well-shaped payload. -/
theorem formatWellnessEntry_ok (e : List (String × Value)) (h : wellnessShapeOk e = true) :
    exceptOk (formatWellnessEntry e) = true := by
  unfold formatWellnessEntry
  obtain ⟨ls, hls⟩ := exceptOk_exists (wellnessBaseLines_ok e h)
  rw [hls]
  rfl

/-- The individual-interval blocks are produced normally when every
element is a dict. -/
theorem formatIntervalItems_ok :
    ∀ (xs : List Value) (i : Nat), xs.all isDictV = true →
      exceptOk (formatIntervalItems i xs) = true
  | [], _, _ => rfl
  | v :: rest, i, h => by
    rw [List.all_cons, Bool.and_eq_true] at h
    cases v with
    | dict kvs =>
      obtain ⟨s, hs⟩ := exceptOk_exists (formatIntervalItems_ok rest (i + 1) h.2)
      unfold formatIntervalItems
      rw [hs]
      rfl
    | null => exact absurd h.1 (by simp [isDictV])
    | bool b => exact absurd h.1 (by simp [isDictV])
    | int n => exact absurd h.1 (by simp [isDictV])
    | str s => exact absurd h.1 (by simp [isDictV])
    | list ys => exact absurd h.1 (by simp [isDictV])

/-- The group blocks are produced normally when every element is a dict. -/
theorem formatGroupItems_ok :
    ∀ (xs : List Value) (i : Nat), xs.all isDictV = true →
      exceptOk (formatGroupItems i xs) = true
  | [], _, _ => rfl
  | v :: rest, i, h => by
    rw [List.all_cons, Bool.and_eq_true] at h
    cases v with
    | dict kvs =>
      obtain ⟨s, hs⟩ := exceptOk_exists (formatGroupItems_ok rest (i + 1) h.2)
      unfold formatGroupItems
      rw [hs]
      rfl
    | null => exact absurd h.1 (by simp [isDictV])
    | bool b => exact absurd h.1 (by simp [isDictV])
    | int n => exact absurd h.1 (by simp [isDictV])
    | str s => exact absurd h.1 (by simp [isDictV])
    | list ys => exact absurd h.1 (by simp [isDictV])

/-- `format_intervals` returns normally on every well-shaped payload. -/
theorem formatIntervals_ok (d : List (String × Value)) (h : intervalsShapeOk d = true) :
    exceptOk (formatIntervals d) = true := by
  unfold intervalsShapeOk at h
  rw [Bool.and_eq_true] at h
  obtain ⟨hi, hg⟩ := h
  unfold formatIntervals
  have hgroups : ∀ s : String, (match lookupV d "icu_groups" with
      | some v => !truthy v ||
          (match v with
           | .list xs => xs.all isDictV
           | _ => false)
      | none => true) = true →
      exceptOk ((match lookupV d "icu_groups" with
        | some v =>
          if truthy v then do
            let items ← pyIter v
            let blocks ← formatGroupItems 1 items
            Except.ok (s ++ "Interval Groups:\n\n" ++ blocks)
          else Except.ok s
        | none => Except.ok s) : Except PyErr String) = true := by
    intro s hg2
    cases hlg : lookupV d "icu_groups" with
    | none => rfl
    | some gv =>
      rw [hlg] at hg2
      dsimp only at hg2
      dsimp only
      by_cases htg : truthy gv
      · rw [if_pos htg]
        rw [htg] at hg2
        simp only [Bool.not_true, Bool.false_or] at hg2
        cases gv with
        | list ys =>
          obtain ⟨gb, hgb⟩ := exceptOk_exists (formatGroupItems_ok ys 1 hg2)
          simp only [show pyIter (Value.list ys) = Except.ok ys from rfl, hgb,
            bind, Except.bind]
          rfl
        | null => exact absurd hg2 (by simp)
        | bool b => exact absurd hg2 (by simp)
        | int n => exact absurd hg2 (by simp)
        | str s2 => exact absurd hg2 (by simp)
        | dict kvs => exact absurd hg2 (by simp)
      · rw [if_neg htg]
        rfl
  cases hli : lookupV d "icu_intervals" with
  | none =>
    exact hgroups _ hg
  | some v =>
    rw [hli] at hi
    dsimp only at hi
    dsimp only
    by_cases ht : truthy v
    · rw [if_pos ht]
      rw [ht] at hi
      simp only [Bool.not_true, Bool.false_or] at hi
      cases v with
      | list xs =>
        obtain ⟨blocks, hb⟩ := exceptOk_exists (formatIntervalItems_ok xs 1 hi)
        simp only [show pyIter (Value.list xs) = Except.ok xs from rfl, hb,
          bind, Except.bind, pure, Except.pure]
        exact hgroups _ hg
      | null => exact absurd hi (by simp)
      | bool b => exact absurd hi (by simp)
      | int n => exact absurd hi (by simp)
      | str s2 => exact absurd hi (by simp)
      | dict kvs => exact absurd hi (by simp)
    · rw [if_neg ht]
      simp only [bind, Except.bind, pure, Except.pure]
      exact hgroups _ hg

/-- C1 amended: the activity-summary and event-summary formatters are total
(pure functions; on the empty payload every field degrades to its
placeholder, giving the explicit fully-degraded reports below), and the
remaining four formatters return normally on every payload whose structured
fields have the shapes the code assumes — `intervals` sized, `workout` /
`calendar` sub-objects mappings, `sportInfo` iterable, `sleepSecs` numeric,
`sleepQuality` hashable, `icu_intervals` / `icu_groups` sequences of
mappings — with missing fields degrading to `"N/A"` or `0` placeholders.
(The original claim's "any JSON-decodable values in any position" fails on
the code: see the counterexample.) -/
theorem C1_formatters_total_amended :
    (∀ parse : IsoParser, formatActivitySummary parse [] =
      "\nActivity: Unnamed\nID: N/A\nType: Unknown\nDate: Unknown\nDescription: N/A\nDistance: 0 meters\nDuration: 0 seconds\nMoving Time: N/A seconds\nElevation Gain: 0 meters\nElevation Loss: N/A meters\n\nPower Data:\nAverage Power: N/A watts\nWeighted Avg Power: N/A watts\nTraining Load: N/A\nFTP: N/A watts\nKilojoules: N/A\nIntensity: N/A\nPower:HR Ratio: N/A\nVariability Index: N/A\n\nHeart Rate Data:\nAverage Heart Rate: N/A bpm\nMax Heart Rate: N/A bpm\nLTHR: N/A bpm\nResting HR: N/A bpm\nDecoupling: N/A\n\nOther Metrics:\nCadence: N/A rpm\nCalories: N/A\nAverage Speed: N/A m/s\nMax Speed: N/A m/s\nAverage Stride: N/A\nL/R Balance: N/A\nWeight: N/A kg\nRPE: N/A\nSession RPE: N/A\nFeel: N/A\n\nEnvironment:\nTrainer: N/A\nAverage Temp: N/A°C\nMin Temp: N/A°C\nMax Temp: N/A°C\nAvg Wind Speed: N/A km/h\nHeadwind %: N/A%\nTailwind %: N/A%\n\nTraining Metrics:\nFitness (CTL): N/A\nFatigue (ATL): N/A\nTRIMP: N/A\nPolarization Index: N/A\nPower Load: N/A\nHR Load: N/A\nPace Load: N/A\nEfficiency Factor: N/A\n\nDevice Info:\nDevice: N/A\nPower Meter: N/A\nFile Type: N/A")
    ∧ formatEventSummary [] =
      "Date: Unknown\nID: N/A\nType: Other\nName: Unnamed\nDescription: No description"
    ∧ (∀ w, workoutShapeOk w = true → exceptOk (formatWorkout w) = true)
    ∧ (∀ e, eventDetailsShapeOk e = true → exceptOk (formatEventDetails e) = true)
    ∧ (∀ e, wellnessShapeOk e = true → exceptOk (formatWellnessEntry e) = true)
    ∧ (∀ d, intervalsShapeOk d = true → exceptOk (formatIntervals d) = true) :=
  ⟨fun parse => rfl, rfl, formatWorkout_ok, formatEventDetails_ok,
    formatWellnessEntry_ok, formatIntervals_ok⟩

/-- Witness for C1: the shape-conditioned totality conjuncts discharged on
concrete well-shaped payloads (including ones exercising the structured
branches). -/
theorem C1_formatters_total_amended_witness :
    exceptOk (formatWorkout [("name", Value.str "W1"),
      ("intervals", Value.list [Value.int 1, Value.int 2, Value.int 3])]) = true
    ∧ exceptOk (formatEventDetails [("id", Value.str "e1"),
        ("workout", Value.dict [("sport", Value.str "Ride"),
          ("intervals", Value.list [Value.int 1, Value.int 2])]),
        ("race", Value.bool true),
        ("calendar", Value.dict [("name", Value.str "Main")])]) = true
    ∧ exceptOk (formatWellnessEntry [("id", Value.str "2024-01-01"),
        ("sportInfo", Value.list [Value.dict [("type", Value.str "Ride"), ("eftp", Value.int 250)]]),
        ("sleepSecs", Value.int 27000),
        ("sleepQuality", Value.int 2)]) = true
    ∧ exceptOk (formatIntervals [("id", Value.str "i1"),
        ("icu_intervals", Value.list [Value.dict [("label", Value.str "Rep 1")]]),
        ("icu_groups", Value.list [Value.dict [("id", Value.str "G1")]])]) = true := by
  refine ⟨?_, ?_, ?_, ?_⟩
  · exact C1_formatters_total_amended.2.2.1 _ (by decide)
  · exact C1_formatters_total_amended.2.2.2.1 _ (by decide)
  · exact C1_formatters_total_amended.2.2.2.2.1 _ (by decide)
  · exact C1_formatters_total_amended.2.2.2.2.2 _ (by decide)

/-! ## Claim C9 -/

/-- Inserting a key makes it retrievable. -/
theorem lookupD_dictInsert_self {α : Type} (d : List (String × α)) (k : String) (v : α) :
    lookupD (dictInsert d k v) k = some v := by
  induction d with
  | nil => simp [dictInsert, lookupD]
  | cons kv rest ih =>
    obtain ⟨k2, v2⟩ := kv
    by_cases h2 : k2 = k <;> simp [dictInsert, lookupD, h2, ih]

/-- Inserting one key leaves lookups of other keys unchanged. -/
theorem lookupD_dictInsert_ne {α : Type} (d : List (String × α)) (k0 k : String) (v : α)
    (h : k ≠ k0) :
    lookupD (dictInsert d k0 v) k = lookupD d k := by
  have hne : k0 ≠ k := fun hh => h hh.symm
  induction d with
  | nil => simp [dictInsert, lookupD, hne]
  | cons kv rest ih =>
    obtain ⟨k2, v2⟩ := kv
    by_cases h2 : k2 = k0
    · subst h2
      simp [dictInsert, lookupD, hne]
    · simp only [dictInsert, if_neg h2, lookupD]
      by_cases hk2 : k2 = k <;> simp [hk2, ih]

/-- The keys after insertion are the old keys plus the inserted one. -/
theorem mem_keys_dictInsert {α : Type} (d : List (String × α)) (k x : String) (v : α) :
    x ∈ (dictInsert d k v).map Prod.fst ↔ (x ∈ d.map Prod.fst ∨ x = k) := by
  induction d with
  | nil => simp [dictInsert]
  | cons kv rest ih =>
    obtain ⟨k2, v2⟩ := kv
    by_cases h2 : k2 = k
    · subst h2
      have hins : dictInsert ((k2, v2) :: rest) k2 v = (k2, v) :: rest := by
        simp [dictInsert]
      rw [hins]
      simp only [List.map_cons, List.mem_cons]
      tauto
    · have hins : dictInsert ((k2, v2) :: rest) k v = (k2, v2) :: dictInsert rest k v := by
        simp [dictInsert, h2]
      rw [hins]
      simp only [List.map_cons, List.mem_cons, ih]
      tauto

/-- Insertion preserves key uniqueness. -/
theorem dictInsert_nodup_keys {α : Type} (d : List (String × α)) (k : String) (v : α)
    (h : (d.map Prod.fst).Nodup) :
    ((dictInsert d k v).map Prod.fst).Nodup := by
  induction d with
  | nil => simp [dictInsert]
  | cons kv rest ih =>
    obtain ⟨k2, v2⟩ := kv
    rw [List.map_cons, List.nodup_cons] at h
    by_cases h2 : k2 = k
    · subst h2
      simpa [dictInsert, List.nodup_cons] using h
    · rw [show dictInsert ((k2, v2) :: rest) k v = (k2, v2) :: dictInsert rest k v from by
        simp [dictInsert, h2]]
      rw [List.map_cons, List.nodup_cons]
      refine ⟨?_, ih h.2⟩
      rw [mem_keys_dictInsert]
      rintro (hx | hx)
      · exact h.1 hx
      · exact h2 hx

/-- Registration in sequence resolves lookups to the most recent
registration of the name, falling back to the prior registry state. -/
theorem lookupD_registerAll (fs : List Func) :
    ∀ (m : FastMCPState) (k : String),
      lookupD (registerAll m fs).tools k
        = ((fs.reverse.find? (fun f => f.name == k)).map
            (fun f => MCTool.ofFunc f none)).or (lookupD m.tools k) := by
  induction fs with
  | nil =>
    intro m k
    simp [registerAll]
  | cons f fs ih =>
    intro m k
    show lookupD (registerAll (m.toolDecorator f).1 fs).tools k = _
    rw [ih]
    rw [List.reverse_cons, List.find?_append]
    cases hfind : fs.reverse.find? (fun f2 => f2.name == k) with
    | some g => simp [FastMCPState.toolDecorator]
    | none =>
      simp only [Option.map_none, Option.none_or, Option.map_or]
      by_cases hk : f.name = k
      · subst hk
        have hfq : List.find? (fun f2 => f2.name == f.name) [f] = some f := by
          simp [List.find?_cons]
        rw [hfq]
        show lookupD (dictInsert m.tools (MCTool.ofFunc f none).name (MCTool.ofFunc f none)) f.name = _
        rw [show (MCTool.ofFunc f none).name = f.name from rfl]
        rw [lookupD_dictInsert_self]
        rfl
      · have hfq : List.find? (fun f2 => f2.name == k) [f] = none := by
          simp [List.find?_cons, hk]
        rw [hfq]
        show lookupD (dictInsert m.tools (MCTool.ofFunc f none).name (MCTool.ofFunc f none)) k = _
        rw [show (MCTool.ofFunc f none).name = f.name from rfl]
        rw [lookupD_dictInsert_ne m.tools f.name k _ (fun hh => hk hh.symm)]
        rfl

/-- Registration preserves key uniqueness. -/
theorem registerAll_nodup_keys (fs : List Func) :
    ∀ (m : FastMCPState), (m.tools.map Prod.fst).Nodup →
      ((registerAll m fs).tools.map Prod.fst).Nodup := by
  induction fs with
  | nil => intro m h; exact h
  | cons f fs ih =>
    intro m h
    exact ih _ (dictInsert_nodup_keys m.tools _ _ h)

/-- A key is retrievable exactly when it is present. -/
theorem lookupD_isSome_iff_mem {α : Type} (d : List (String × α)) (k : String) :
    (lookupD d k).isSome = true ↔ k ∈ d.map Prod.fst := by
  induction d with
  | nil => simp [lookupD]
  | cons kv rest ih =>
    obtain ⟨k2, v2⟩ := kv
    by_cases h2 : k2 = k
    · subst h2
      simp [lookupD]
    · have hne : ¬ k = k2 := fun hh => h2 hh.symm
      simp [lookupD, h2, ih, hne]

/-- C9: `FastMCP.tool()` returns the decorated callable unchanged and
records it under its declared name; after any sequence of registrations the
registry holds exactly one entry per distinct registered name (keys are
duplicate-free and are exactly the registered names), and each name maps to
the `Tool` built from the most recently registered callable of that name
(re-registration overwrites, as the concrete two-registration run shows). -/
theorem C9_registry_last_wins (name0 : String) (fs : List Func) :
    (∀ (m : FastMCPState) (f : Func), (m.toolDecorator f).2 = f)
    ∧ (((registerAll (FastMCPState.init name0) fs).tools.map Prod.fst).Nodup)
    ∧ (∀ k, k ∈ (registerAll (FastMCPState.init name0) fs).tools.map Prod.fst
        ↔ k ∈ fs.map Func.name)
    ∧ (∀ k, lookupD (registerAll (FastMCPState.init name0) fs).tools k
        = (fs.reverse.find? (fun f => f.name == k)).map (fun f => MCTool.ofFunc f none))
    ∧ (registerAll (FastMCPState.init "srv")
        [⟨"mytool", "first doc", 1⟩, ⟨"mytool", "second doc", 2⟩]).tools
      = [("mytool", MCTool.ofFunc ⟨"mytool", "second doc", 2⟩ none)] := by
  have hlook : ∀ k, lookupD (registerAll (FastMCPState.init name0) fs).tools k
      = (fs.reverse.find? (fun f => f.name == k)).map (fun f => MCTool.ofFunc f none) := by
    intro k
    rw [lookupD_registerAll fs (FastMCPState.init name0) k]
    rw [show lookupD (FastMCPState.init name0).tools k = none from rfl, Option.or_none]
  refine ⟨fun m f => rfl, ?_, ?_, hlook, by decide⟩
  · exact registerAll_nodup_keys fs _ (by simp [FastMCPState.init])
  · intro k
    rw [← lookupD_isSome_iff_mem, hlook k]
    rw [Option.isSome_map']
    rw [List.find?_isSome]
    constructor
    · rintro ⟨f, hf, hbeq⟩
      rw [List.mem_reverse] at hf
      exact beq_iff_eq.mp hbeq ▸ List.mem_map_of_mem Func.name hf
    · intro hk
      obtain ⟨f, hf, rfl⟩ := List.mem_map.mp hk
      exact ⟨f, List.mem_reverse.mpr hf, by simp⟩

/-- Witness for C9: looking up the twice-registered name returns the tool
of the second registration. -/
theorem C9_registry_last_wins_witness :
    lookupD (registerAll (FastMCPState.init "srv")
        [⟨"mytool", "first doc", 1⟩, ⟨"mytool", "second doc", 2⟩]).tools "mytool"
      = some (MCTool.ofFunc ⟨"mytool", "second doc", 2⟩ none) := by
  rw [(C9_registry_last_wins "srv"
    [⟨"mytool", "first doc", 1⟩, ⟨"mytool", "second doc", 2⟩]).2.2.2.1 "mytool"]
  rfl

/-! ## Claim C7 -/

/-- Binding against the three-argument `register_tool` host: exactly one
full-arity call per tool, in order. -/
theorem bindTools_register3 (ts : List MCTool) :
    ∀ st : BindState,
      bindTools register3Host st ts
        = .ok { trace := st.trace ++ ts.map (fun t => Event.registerFull t.name t.func.id),
                registered := st.registered ++ ts.map (fun t => (t.name, t.func.id)),
                rtCreated := st.rtCreated } := by
  induction ts with
  | nil => intro st; simp [bindTools]
  | cons t ts ih =>
    intro st
    show (do
      let st2 ← bindTool register3Host st t
      bindTools register3Host st2 ts) = _
    rw [show bindTool register3Host st t = .ok { st with
        trace := st.trace ++ [.registerFull t.name t.func.id],
        registered := st.registered ++ [(t.name, t.func.id)] } from rfl]
    show bindTools register3Host { st with
        trace := st.trace ++ [.registerFull t.name t.func.id],
        registered := st.registered ++ [(t.name, t.func.id)] } ts = _
    rw [ih]
    simp

/-- Binding against the arity-rejecting host: a full-arity attempt followed
by the description-free retry, per tool. -/
theorem bindTools_register2 (ts : List MCTool) :
    ∀ st : BindState,
      bindTools register2Host st ts
        = .ok { trace := st.trace ++ (ts.map (fun t =>
              [Event.registerFull t.name t.func.id, Event.registerShort t.name t.func.id])).join,
                registered := st.registered ++ ts.map (fun t => (t.name, t.func.id)),
                rtCreated := st.rtCreated } := by
  induction ts with
  | nil => intro st; simp [bindTools]
  | cons t ts ih =>
    intro st
    show (do
      let st2 ← bindTool register2Host st t
      bindTools register2Host st2 ts) = _
    rw [show bindTool register2Host st t = .ok { st with
        trace := st.trace ++ [.registerFull t.name t.func.id, .registerShort t.name t.func.id],
        registered := st.registered ++ [(t.name, t.func.id)] } from rfl]
    show bindTools register2Host { st with
        trace := st.trace ++ [.registerFull t.name t.func.id, .registerShort t.name t.func.id],
        registered := st.registered ++ [(t.name, t.func.id)] } ts = _
    rw [ih]
    simp

/-- Binding against the decorator-factory host: one factory call and one
decorator application per tool. -/
theorem bindTools_toolDeco (ts : List MCTool) :
    ∀ st : BindState,
      bindTools toolDecoHost st ts
        = .ok { trace := st.trace ++ (ts.map (fun t =>
              [Event.toolFactoryFull t.name, Event.decoApplied t.name t.func.id])).join,
                registered := st.registered ++ ts.map (fun t => (t.name, t.func.id)),
                rtCreated := st.rtCreated } := by
  induction ts with
  | nil => intro st; simp [bindTools]
  | cons t ts ih =>
    intro st
    show (do
      let st2 ← bindTool toolDecoHost st t
      bindTools toolDecoHost st2 ts) = _
    rw [show bindTool toolDecoHost st t = .ok { st with
        trace := st.trace ++ [.toolFactoryFull t.name, .decoApplied t.name t.func.id],
        registered := st.registered ++ [(t.name, t.func.id)] } from rfl]
    show bindTools toolDecoHost { st with
        trace := st.trace ++ [.toolFactoryFull t.name, .decoApplied t.name t.func.id],
        registered := st.registered ++ [(t.name, t.func.id)] } ts = _
    rw [ih]
    simp

/-- C7: against a host exposing only `register(name, func, description)`,
the bind/run sequence invokes that entry point exactly once per registered
tool with the tool's name (the trace carries one full-arity register event
per tool, in order, and its register-call names are exactly the tool names
— so a single tool named "mytool" produces exactly one call with that
name); the description-free retry occurs only under an arity `TypeError`
(no retry events against the three-argument host, one per tool against the
arity-rejecting host); and against a host exposing only a
`tool(name, description)` decorator factory that strategy is used instead,
with the identical end-to-end registered `(name, callable)` outcome. -/
theorem C7_registration_strategies (reg : FastMCPState) (hne : reg.getTools ≠ [])
    (fb : Option PyErr) :
    (runModel reg [some register3Host] fb
      = .ok { trace := reg.getTools.map (fun t => Event.registerFull t.name t.func.id)
                ++ [.hostRun],
              registered := reg.getTools.map (fun t => (t.name, t.func.id)),
              rtCreated := false })
    ∧ ((reg.getTools.map (fun t => Event.registerFull t.name t.func.id) ++ [Event.hostRun]).filterMap
        registerCallName = reg.getTools.map (fun t => t.name))
    ∧ (runModel reg [some register2Host] fb
      = .ok { trace := (reg.getTools.map (fun t =>
            [Event.registerFull t.name t.func.id, Event.registerShort t.name t.func.id])).join
            ++ [.hostRun],
              registered := reg.getTools.map (fun t => (t.name, t.func.id)),
              rtCreated := false })
    ∧ (runModel reg [some toolDecoHost] fb
      = .ok { trace := (reg.getTools.map (fun t =>
            [Event.toolFactoryFull t.name, Event.decoApplied t.name t.func.id])).join
            ++ [.hostRun],
              registered := reg.getTools.map (fun t => (t.name, t.func.id)),
              rtCreated := false })
    ∧ (∀ fb2, runModel (registerAll (FastMCPState.init "srv") [⟨"mytool", "Test tool", 7⟩])
        [some register3Host] fb2
      = .ok { trace := [.registerFull "mytool" 7, .hostRun],
              registered := [("mytool", 7)], rtCreated := false }) := by
  have hrun3 : ∀ (r : FastMCPState) (fb2 : Option PyErr),
      runModel r [some register3Host] fb2
        = .ok { trace := r.getTools.map (fun t => Event.registerFull t.name t.func.id)
                  ++ [.hostRun],
                registered := r.getTools.map (fun t => (t.name, t.func.id)),
                rtCreated := false } := by
    intro r fb2
    unfold runModel mainPhase
    rw [show ([some register3Host].findSome? (fun c => c)) = some register3Host from rfl]
    dsimp only
    rw [bindTools_register3 r.getTools { trace := [], registered := [], rtCreated := false }]
    rfl
  refine ⟨hrun3 reg fb, ?_, ?_, ?_, fun fb2 => hrun3 _ fb2⟩
  · rw [List.filterMap_append]
    rw [show List.filterMap registerCallName [Event.hostRun] = [] from rfl]
    rw [List.filterMap_map]
    rw [List.append_nil]
    rw [show (registerCallName ∘ fun t : MCTool => Event.registerFull t.name t.func.id)
        = some ∘ (fun t : MCTool => t.name) from rfl]
    rw [List.filterMap_eq_map]
  · unfold runModel mainPhase
    rw [show ([some register2Host].findSome? (fun c => c)) = some register2Host from rfl]
    dsimp only
    rw [bindTools_register2 reg.getTools { trace := [], registered := [], rtCreated := false }]
    rfl
  · unfold runModel mainPhase
    rw [show ([some toolDecoHost].findSome? (fun c => c)) = some toolDecoHost from rfl]
    dsimp only
    rw [bindTools_toolDeco reg.getTools { trace := [], registered := [], rtCreated := false }]
    rfl

/-- Witness for C7: the single-tool registry bound against the
register-style and decorator-style hosts. -/
theorem C7_registration_strategies_witness :
    runModel (registerAll (FastMCPState.init "srv") [⟨"mytool", "Test tool", 7⟩])
        [some register3Host] none
      = .ok { trace := [.registerFull "mytool" 7, .hostRun],
              registered := [("mytool", 7)], rtCreated := false }
    ∧ runModel (registerAll (FastMCPState.init "srv") [⟨"mytool", "Test tool", 7⟩])
        [some toolDecoHost] none
      = .ok { trace := [.toolFactoryFull "mytool", .decoApplied "mytool" 7, .hostRun],
              registered := [("mytool", 7)], rtCreated := false } := by
  have h := C7_registration_strategies
    (registerAll (FastMCPState.init "srv") [⟨"mytool", "Test tool", 7⟩])
    (by decide) none
  exact ⟨h.2.2.2.2 none, h.2.2.2.1⟩


/-! ## Claim C8: single descriptive error on total failure -/

/-- An empty needle is a substring of every character list. -/
theorem listSubstr_nil_needle (l : List Char) : listSubstr [] l = true := by
  cases l <;> simp [listSubstr, listPrefixEq]

/-- A list is a character-prefix of itself extended on the right. -/
theorem listPrefixEq_self_append (xs ys : List Char) :
    listPrefixEq xs (xs ++ ys) = true := by
  induction xs with
  | nil => rfl
  | cons a as ih => simp [listPrefixEq, ih]

/-- Substring search succeeds on any three-part decomposition. -/
theorem listSubstr_of_parts (pre mid post : List Char) :
    listSubstr mid (pre ++ (mid ++ post)) = true := by
  induction pre with
  | nil =>
    cases mid with
    | nil => simpa using listSubstr_nil_needle post
    | cons m ms =>
      show listSubstr (m :: ms) (m :: (ms ++ post)) = true
      simp [listSubstr, listPrefixEq, listPrefixEq_self_append]
  | cons p ps ih =>
    show listSubstr mid (p :: (ps ++ (mid ++ post))) = true
    simp [listSubstr, ih]

/-- `strContains` holds whenever the needle is a character-list infix of
the haystack. -/
theorem strContains_of_infix (hay needle : String)
    (h : needle.toList <:+: hay.toList) : strContains hay needle = true := by
  obtain ⟨s, t, hst⟩ := h
  unfold strContains
  rw [← hst, List.append_assoc]
  exact listSubstr_of_parts s needle.toList t

/-- The left operand of a string append is an infix of the result. -/
theorem toList_infix_append_left (a b : String) :
    a.toList <:+: (a ++ b).toList := by
  refine ⟨[], b.toList, ?_⟩
  simp [String.toList, String.data_append]

/-- The right operand of a string append is an infix of the result. -/
theorem toList_infix_append_right (a b : String) :
    b.toList <:+: (a ++ b).toList := by
  refine ⟨a.toList, [], ?_⟩
  simp [String.toList, String.data_append]

/-- Every member of a separator join is an infix of the joined string. -/
theorem joinSep_infix (sep : String) {x : String} : ∀ {l : List String},
    x ∈ l → x.toList <:+: (joinSep sep l).toList := by
  intro l
  induction l with
  | nil => intro hx; cases hx
  | cons a rest ih =>
    intro hx
    cases rest with
    | nil =>
      cases hx with
      | head => exact ⟨[], [], by simp [joinSep]⟩
      | tail _ h => cases h
    | cons b bs =>
      cases hx with
      | head =>
        show x.toList <:+: (x ++ sep ++ joinSep sep (b :: bs)).toList
        exact (toList_infix_append_left x sep).trans
          (toList_infix_append_left (x ++ sep) (joinSep sep (b :: bs)))
      | tail _ h =>
        show x.toList <:+: (a ++ sep ++ joinSep sep (b :: bs)).toList
        exact (ih h).trans (toList_infix_append_right (a ++ sep) (joinSep sep (b :: bs)))

/-- Each registered tool name is an infix of the Python rendering of the
name list. -/
theorem name_infix_pyStrNameList {n : String} {names : List String}
    (hn : n ∈ names) : n.toList <:+: (pyStrNameList names).toList := by
  have hq : ("\x27" ++ n ++ "\x27") ∈ names.map (fun m => "\x27" ++ m ++ "\x27") :=
    List.mem_map_of_mem _ hn
  have h1 : n.toList <:+: ("\x27" ++ n ++ "\x27").toList :=
    (toList_infix_append_right "\x27" n).trans
      (toList_infix_append_left ("\x27" ++ n) "\x27")
  have h2 := joinSep_infix ", " hq
  have h3 : (joinSep ", " (names.map (fun m => "\x27" ++ m ++ "\x27"))).toList
      <:+: (pyStrNameList names).toList :=
    (toList_infix_append_right "[" _).trans
      (toList_infix_append_left ("[" ++ joinSep ", " (names.map (fun m => "\x27" ++ m ++ "\x27"))) "]")
  exact (h1.trans h2).trans h3

/-- The rendered name list is an infix of the final failure message. -/
theorem pyStrNameList_infix_message (names : List String) (e : PyErr) :
    (pyStrNameList names).toList <:+: (runFailureMessage names e).toList := by
  unfold runFailureMessage
  exact ((toList_infix_append_right _ (pyStrNameList names)).trans
    (toList_infix_append_left _ ". Original error: ")).trans
    (toList_infix_append_left _ e.text)

/-- The original exception text is an infix (in fact a suffix) of the
final failure message. -/
theorem excText_infix_message (names : List String) (e : PyErr) :
    e.text.toList <:+: (runFailureMessage names e).toList := by
  unfold runFailureMessage
  exact toList_infix_append_right _ e.text

/-- C8: when every runtime candidate fails (the main phase errors with
`exc`) and the fallback to the installed `mcp` package also fails,
`FastMCP.run()` surfaces exactly one error — a RuntimeError whose message
contains every registered tool name and the text of the exception that
exhausted candidate probing — and when the fallback instead succeeds, no
probing failure is surfaced at all. -/
theorem C8_failure_reporting (reg : FastMCPState)
    (candidates : List (Option RuntimeServer)) (exc : PyErr) (fe : PyErr)
    (hmain : mainPhase reg candidates = .error exc) :
    runModel reg candidates (some fe)
      = .error (.runtimeError (runFailureMessage (reg.getTools.map (fun t => t.name)) exc))
    ∧ (∀ t ∈ reg.getTools,
        strContains (runFailureMessage (reg.getTools.map (fun t => t.name)) exc) t.name = true)
    ∧ strContains (runFailureMessage (reg.getTools.map (fun t => t.name)) exc) exc.text = true
    ∧ runModel reg candidates none
      = .ok { trace := (reg.getTools.map (fun t => Event.fallbackReg t.name t.func.id)) ++ [.fallbackRun],
              registered := reg.getTools.map (fun t => (t.name, t.func.id)),
              rtCreated := false } := by
  refine ⟨?_, ?_, ?_, ?_⟩
  · unfold runModel
    rw [hmain]
  · intro t ht
    have hn : t.name ∈ reg.getTools.map (fun t => t.name) := List.mem_map_of_mem _ ht
    exact strContains_of_infix _ _
      ((name_infix_pyStrNameList hn).trans (pyStrNameList_infix_message _ exc))
  · exact strContains_of_infix _ _ (excText_infix_message _ exc)
  · unfold runModel
    rw [hmain]

/-- Witness for C8: a one-tool registry with no importable candidate and a
failing fallback yields exactly the composed RuntimeError. -/
theorem C8_failure_reporting_witness :
    mainPhase (registerAll (FastMCPState.init "srv") [⟨"mytool", "Test tool", 7⟩]) []
      = .error (.importError "No OpenAI MCP runtime candidate imported")
    ∧ runModel (registerAll (FastMCPState.init "srv") [⟨"mytool", "Test tool", 7⟩]) []
        (some (.runtimeError "boom"))
      = .error (.runtimeError (runFailureMessage ["mytool"]
          (.importError "No OpenAI MCP runtime candidate imported"))) := by
  have h := C8_failure_reporting
    (registerAll (FastMCPState.init "srv") [⟨"mytool", "Test tool", 7⟩]) []
    (.importError "No OpenAI MCP runtime candidate imported")
    (.runtimeError "boom") rfl
  exact ⟨rfl, h.1⟩

end IntervalsMCP
